import Mathlib

set_option maxRecDepth 8000
set_option exponentiation.threshold 1100

/-!
Verification development for the PokePurge rule-evaluation engine
(`src/fetchData/processors/pokemon_agent.py` and
`src/fetchData/processors/batch_ai_processor.py`).

The Python code is shallowly embedded:
* optional / nullable record fields become the `Fld` type
  (`absent` = key missing, `null` = key present with value `None`);
* numbers are `Int` and exact fractions (Python floats are modelled by
  their exact rational value, with overflow to infinity at the
  IEEE-754 double boundary `2^1024 - 2^970`; rounding of finite values
  to 53-bit significands is not modelled, which does not affect any
  statement proved here);
* code that can raise returns `Except PyErr _`, with an `error`
  exactly at the program points where the Python raises;
* the JSON configuration is an explicit structure; its text templates
  are modelled as total functions of the keyword arguments the code
  passes to `str.format`.
-/

/-- A Python record field: missing key, `None`, or a value. -/
inductive Fld (α : Type) where
  | absent : Fld α
  | null : Fld α
  | val : α → Fld α
deriving DecidableEq, Repr

/-- `pokemon.get(k, d) or d` / `pokemon.get(k) or d`: both `absent` and
`null` (and only those, for the values appearing in this program, where
falsy values coincide with the default) collapse to the default. -/
def Fld.orD {α : Type} : Fld α → α → α
  | .val a, _ => a
  | _, d => d

/-- `pokemon.get(k, d)`: `absent` gives the default, `null` stays `None`
(`Option.none`), a value stays itself. -/
def Fld.getPy {α : Type} : Fld α → α → Option α
  | .absent, d => Option.some d
  | .null, _ => Option.none
  | .val a, _ => Option.some a

/-- Python exceptions relevant to this program. -/
inductive PyErr where
  | attributeError
  | typeError
  | valueError
  | overflowError
  | keyError
deriving DecidableEq, Repr

/-- Display string of an exception, standing in for Python `str(e)`
(the concrete message text is irrelevant to every claim). -/
def errStr : PyErr → String
  | .attributeError => "AttributeError"
  | .typeError => "TypeError"
  | .valueError => "ValueError"
  | .overflowError => "OverflowError"
  | .keyError => "KeyError"

/-- An unnormalized fraction `num / den` (`den` positive in every
value this program builds). Python float values are modelled exactly;
keeping fractions unnormalized keeps every operation
kernel-computable. -/
structure PyRat where
  num : Int
  den : ℕ
deriving DecidableEq, Repr

/-- The value of a Python float: an exact rational, an infinity, or NaN. -/
inductive PyFloat where
  | finite : PyRat → PyFloat
  | inf : PyFloat
  | negInf : PyFloat
  | nan : PyFloat
deriving DecidableEq, Repr

/-- A value that may appear in the `rank` field of a `bestTypes` entry. -/
inductive RankVal where
  | intV : Int → RankVal
  | strV : String → RankVal
  | floatV : PyFloat → RankVal
  | noneV : RankVal
deriving DecidableEq, Repr

/-- `str.lower()` (ASCII, matching every string this program lowers). -/
def strLower (s : String) : String := String.mk (s.data.map Char.toLower)

/-- `str.strip()` with no argument: remove leading and trailing
whitespace. -/
def strTrim (s : String) : String :=
  String.mk (((s.data.dropWhile Char.isWhitespace).reverse.dropWhile
    Char.isWhitespace).reverse)

/-- `s.startswith(pre)`. -/
def strStartsWith (s pre : String) : Bool := pre.data.isPrefixOf s.data

/-- `s.rstrip(chars)` for a single-character class given as a
predicate. -/
def strDropRightWhile (s : String) (p : Char → Bool) : String :=
  String.mk ((s.data.reverse.dropWhile p).reverse)

/-- All characters satisfy `p`. -/
def strAll (s : String) (p : Char → Bool) : Bool := s.data.all p

/-- Split a character list on each leftmost occurrence of the
non-empty separator `sep`; `fuel` only forces termination and is
always supplied larger than the list length. -/
def chSplitGo (sep : List Char) : ℕ → List Char → List Char → List (List Char)
  | _, [], acc => [acc.reverse]
  | 0, l, acc => [acc.reverse ++ l]
  | fuel + 1, c :: rest, acc =>
    if sep.isPrefixOf (c :: rest) then
      acc.reverse :: chSplitGo sep fuel (List.drop sep.length (c :: rest)) []
    else chSplitGo sep fuel rest (c :: acc)

/-- `s.split(sep)` for non-empty `sep` (also the semantics of Lean's
`String.splitOn`). -/
def strSplitOn (s sep : String) : List String :=
  (chSplitGo sep.data (s.data.length + 1) s.data []).map String.mk

/-- `s.replace(pat, rep)` for a one-character pattern. -/
def strReplace1 (s : String) (pat rep : Char) : String :=
  String.mk (s.data.map (fun c => if c = pat then rep else c))

/-- Python `needle in hay` substring test (needles in this program are
always non-empty literals, for which splitting detects occurrence). -/
def pyIn (needle hay : String) : Bool :=
  (strSplitOn hay needle).length > 1

/-- Decimal-digit string to `ℕ` (ASCII digits only, as a model of the
Python literal grammar; Python also accepts underscores and Unicode
digits, which no claim exercises). -/
def digitsToNat (s : String) : Option ℕ :=
  if s.isEmpty then Option.none
  else if strAll s (fun c => c.isDigit) then
    Option.some (s.data.foldl (fun n c => 10 * n + (c.toNat - 48)) 0)
  else Option.none

/-- Mantissa of a float literal: `digits`, `digits.`, `.digits` or
`digits.digits`. -/
def mantissaVal (s : String) : Option PyRat :=
  match strSplitOn s "." with
  | [a] => (digitsToNat a).map (fun n => PyRat.mk (Int.ofNat n) 1)
  | [a, b] =>
    if a.isEmpty && b.isEmpty then Option.none
    else
      match digitsToNat (a ++ b) with
      | Option.some n =>
        if (a.isEmpty || strAll a (fun c => c.isDigit)) &&
           (b.isEmpty || strAll b (fun c => c.isDigit)) then
          Option.some (PyRat.mk (Int.ofNat n) (Nat.pow 10 b.length))
        else Option.none
      | Option.none => Option.none
  | _ => Option.none

/-- Exponent part of a float literal: optional sign and digits. -/
def exponentVal (s : String) : Option Int :=
  if strStartsWith s "-" then (digitsToNat (s.drop 1)).map (fun n => -(n : Int))
  else if strStartsWith s "+" then (digitsToNat (s.drop 1)).map (fun n => (n : Int))
  else (digitsToNat s).map (fun n => (n : Int))

/-- Smallest magnitude that rounds to infinity in IEEE-754 binary64. -/
def dblOverflowInt : Int := Int.ofNat (Nat.pow 2 1024 - Nat.pow 2 970)

/-- Multiply an exact fraction by `10 ^ e`. -/
def pyRatScale10 (q : PyRat) (e : Int) : PyRat :=
  match e with
  | Int.ofNat k => PyRat.mk (q.num * Int.ofNat (Nat.pow 10 k)) q.den
  | Int.negSucc k => PyRat.mk q.num (q.den * Nat.pow 10 (k + 1))

/-- Build the float for a parsed magnitude, applying the sign and
overflow to the infinities exactly as CPython `float(str)` does. -/
def mkFloat (neg : Bool) (q : PyRat) : PyFloat :=
  let v : PyRat := if neg then PyRat.mk (-q.num) q.den else q
  if v.num ≤ -(dblOverflowInt * Int.ofNat v.den) then PyFloat.negInf
  else if dblOverflowInt * Int.ofNat v.den ≤ v.num then PyFloat.inf
  else PyFloat.finite v

/-- Model of Python `float(s)` on strings: `none` means `ValueError`. -/
def pyFloatOfString (s : String) : Option PyFloat :=
  let t := strTrim s
  let neg := strStartsWith t "-"
  let body := if strStartsWith t "-" || strStartsWith t "+" then t.drop 1 else t
  let lb := strLower body
  if lb = "inf" || lb = "infinity" then
    Option.some (if neg then PyFloat.negInf else PyFloat.inf)
  else if lb = "nan" then Option.some PyFloat.nan
  else
    match strSplitOn lb "e" with
    | [m] => (mantissaVal m).map (fun q => mkFloat neg q)
    | [m, ex] =>
      match mantissaVal m, exponentVal ex with
      | Option.some q, Option.some e => Option.some (mkFloat neg (pyRatScale10 q e))
      | _, _ => Option.none
    | _ => Option.none

/-- Python `int(f)` on a float: truncation toward zero for finite
values, `ValueError` for NaN, `OverflowError` for the infinities. -/
def pyIntOfFloat : PyFloat → Except PyErr Int
  | .finite q => Except.ok (Int.tdiv q.num (Int.ofNat q.den))
  | .nan => Except.error PyErr.valueError
  | .inf => Except.error PyErr.overflowError
  | .negInf => Except.error PyErr.overflowError

/-- Zero-pad a digit string on the left to width `k`. -/
def padZeros (s : String) (k : ℕ) : String :=
  String.mk (List.replicate (k - s.data.length) '0') ++ s

/-- `str(f)` for a finite float value: the exact decimal expansion
(Python prints the shortest round-tripping decimal; both parse back to
the same value, so `_parse_rank` is unaffected by the difference). -/
def pyStrFinite (q : PyRat) : String :=
  match (List.range 1075).find? (fun k => Nat.pow 10 k % q.den = 0) with
  | Option.none => toString q.num ++ "/" ++ toString q.den
  | Option.some k =>
    let n : Int := q.num * Int.ofNat (Nat.pow 10 k / q.den)
    let sign := if n < 0 then "-" else ""
    let m := n.natAbs
    if k = 0 then sign ++ toString m ++ ".0"
    else sign ++ toString (m / Nat.pow 10 k) ++ "." ++
      padZeros (toString (m % Nat.pow 10 k)) k

/-- `str(f)` for a float. -/
def pyStrFloat : PyFloat → String
  | .finite q => pyStrFinite q
  | .inf => "inf"
  | .negInf => "-inf"
  | .nan => "nan"

/-- `str(v)` for a rank value. -/
def pyStr : RankVal → String
  | .intV n => toString n
  | .strV s => s
  | .floatV f => pyStrFloat f
  | .noneV => "None"

/-- `PokemonAgent._parse_rank` (pokemon_agent.py lines 28-35):
strip trailing periods, convert via `int(float(...))`; `ValueError` and
`TypeError` are caught and give the sentinel 999; other exceptions
(`OverflowError` from an infinite float) propagate. -/
def parseRank (rank_str : RankVal) : Except PyErr Int :=
  match pyFloatOfString (strDropRightWhile (pyStr rank_str) (fun c => c = '.')) with
  | Option.none => Except.ok 999
  | Option.some f =>
    match pyIntOfFloat f with
    | Except.ok n => Except.ok n
    | Except.error PyErr.valueError => Except.ok 999
    | Except.error e => Except.error e

/-- A `bestTypes` entry: `{type: ..., rank: ...}`; the `type` key is
always present (as in every record the program handles), the `rank`
key may be absent, `None`, or any rank value. -/
structure BType where
  ty : String
  rank : Fld RankVal
deriving DecidableEq, Repr

/-- `t.get('rank', '999')`. -/
def BType.rankPy (t : BType) : RankVal :=
  match t.rank with
  | .absent => RankVal.strV "999"
  | .null => RankVal.noneV
  | .val v => v

/-- Raw rank display used by the f-string `{t['rank']}` in
`generate_notes` (only reached when the key is present). -/
def BType.rankDisplay (t : BType) : String :=
  match t.rank with
  | .absent => ""
  | .null => "None"
  | .val v => pyStr v

/-- A league entry value: `Option.none` models a `null` league (falsy,
skipped); `Option.some o` a league object whose `score` key holds `o`
(`Option.none` inside meaning the key is absent). Scores are integers;
league objects are assumed non-empty, hence truthy. -/
abbrev LeagueVal := Option (Option Int)

abbrev Leagues := List (String × LeagueVal)

/-- A Pokemon record with the fields the engine reads plus the four
derived fields it writes (which it never reads). -/
structure Pokemon where
  name : Fld String
  types : Fld (List String)
  leagues : Fld Leagues
  raidTier : Fld String
  defenderTier : Fld String
  bestTypes : Fld (List BType)
  form : Fld String
  trashability : Fld String
  recommendedCount : Fld Int
  quickRole : Fld String
  keyTags : Fld (List String)
  roleSummary : Fld String
  notes : Fld String
deriving DecidableEq, Repr

/-- The record with every field absent. -/
def emptyPokemon : Pokemon :=
  ⟨.absent, .absent, .absent, .absent, .absent, .absent, .absent,
   .absent, .absent, .absent, .absent, .absent, .absent⟩

/-- Keyword arguments passed to `role_summary_templates[tier].format`:
one constructor per call shape in `generate_role_summary`. -/
inductive TmplCall where
  | trashCall (pokemon_name : String)
  | situCall (pokemon_name role specific_use backup_role type_coverage : String)
  | mainCall (pokemon_name role best_use_case key_strength : String)

/-- The loaded configuration. Lookups the code performs with `[...]`
(which would raise `KeyError` for a missing key) are modelled as total
functions, matching the claims' proviso that the configuration has an
entry for every tier and role key; templates are total functions of
the keyword arguments supplied to `format`. -/
structure Config where
  raid_tier_rankings : List (String × Int)
  performance_tiers : String → String
  role_types : String → String
  role_summary_templates : String → TmplCall → String
  defensive_types : List String
  offensive_types : List String

/-- The result dict of `analyze_pokemon`. -/
structure AnalyzeResult where
  quickRole : String
  keyTags : List String
  roleSummary : String
  notes : String
deriving DecidableEq, Repr

/-- `[league.get('score', 0) for league in leagues.values() if league]`. -/
def pvpScoresOf (leagues : Leagues) : List Int :=
  leagues.filterMap (fun kv =>
    match kv.2 with
    | Option.none => Option.none
    | Option.some obj => Option.some (obj.getD 0))

/-- `max(pvp_scores) if pvp_scores else 0`. -/
def maxPvp (scores : List Int) : Int :=
  match scores with
  | [] => 0
  | s :: rest => rest.foldl max s

/-- `len([score for score in pvp_scores if score >= 75])`. -/
def strongLeagueCount (scores : List Int) : ℕ :=
  (scores.filter (fun s => 75 ≤ s)).length

/-- `self.config['raid_tier_rankings'].get(raid_tier, 0)`. -/
def raidScoreOf (cfg : Config) (raid_tier : String) : Int :=
  ((cfg.raid_tier_rankings.lookup raid_tier).getD 0)

/-- Parse the rank of each entry of a `bestTypes` list in order,
pairing every entry with its parsed rank; an `OverflowError` from any
entry propagates, as in the Python comprehensions. -/
def rankedTypes : List BType → Except PyErr (List (BType × Int))
  | [] => Except.ok []
  | t :: rest =>
    match parseRank t.rankPy with
    | Except.error e => Except.error e
    | Except.ok r =>
      match rankedTypes rest with
      | Except.error e => Except.error e
      | Except.ok rs => Except.ok ((t, r) :: rs)

/-- `len([t for t in best_types if self._parse_rank(t.get('rank','999')) <= 10])`. -/
def topTypeRankings (best_types : List BType) : Except PyErr ℕ :=
  match rankedTypes best_types with
  | Except.error e => Except.error e
  | Except.ok rs => Except.ok (rs.filter (fun tr => tr.2 ≤ 10)).length

/-- `PokemonAgent.calculate_performance_tier` (pokemon_agent.py 77-108).
`pokemon.get('leagues', {})` has no `or {}` guard, so a `null` leagues
field raises `AttributeError` at `leagues.values()`; a `null`
`bestTypes` raises `TypeError` when line 92 iterates it. -/
def calculate_performance_tier (cfg : Config) (p : Pokemon) : Except PyErr String := do
  let leagues ← match p.leagues.getPy [] with
    | Option.none => Except.error PyErr.attributeError
    | Option.some l => pure l
  let raid_tier : Option String := p.raidTier.getPy ""
  let best_types ← match p.bestTypes.getPy [] with
    | Option.none => Except.error PyErr.typeError
    | Option.some l => pure l
  let pvp_scores := pvpScoresOf leagues
  let max_pvp_score := maxPvp pvp_scores
  let strong_leagues := strongLeagueCount pvp_scores
  let raid_score : Int := match raid_tier with
    | Option.none => 0
    | Option.some rt => raidScoreOf cfg rt
  let _ ← topTypeRankings best_types
  if 90 ≤ max_pvp_score ∧ 2 ≤ strong_leagues ∧ 4 ≤ raid_score then
    pure "meta_defining"
  else if 80 ≤ max_pvp_score ∧ (1 ≤ strong_leagues ∨ 3 ≤ raid_score) then
    pure "strong"
  else if 70 ≤ max_pvp_score ∨ 3 ≤ raid_score then
    pure "solid"
  else if 60 ≤ max_pvp_score ∨ 2 ≤ raid_score then
    pure "situational"
  else if 50 ≤ max_pvp_score ∨ 1 ≤ raid_score then
    pure "limited"
  else
    pure "trash"

/-- `any(tier in (defense_tier or '') for tier in ['S Tier','A+ Tier','A Tier'])`. -/
def hasGoodDefense (defense_tier : String) : Bool :=
  ["S Tier", "A+ Tier", "A Tier"].any (fun t => pyIn t defense_tier)

/-- `PokemonAgent.determine_role_type` (pokemon_agent.py 110-147);
here every field access is guarded with `or`, so only a rank parse can
raise. -/
def determine_role_type (cfg : Config) (p : Pokemon) : Except PyErr String := do
  let leagues := p.leagues.orD []
  let raid_tier := p.raidTier.orD ""
  let defense_tier := p.defenderTier.orD ""
  let best_types := p.bestTypes.orD []
  let pvp_scores := pvpScoresOf leagues
  let max_pvp_score := maxPvp pvp_scores
  let strong_leagues := strongLeagueCount pvp_scores
  let raid_score := raidScoreOf cfg raid_tier
  let top_type_rankings ← topTypeRankings best_types
  let has_good_defense := hasGoodDefense defense_tier
  if 85 ≤ max_pvp_score ∧ 2 ≤ strong_leagues ∧ 3 ≤ raid_score then
    pure "meta_anchor"
  else if 80 ≤ max_pvp_score ∧ 1 ≤ strong_leagues then
    pure "pvp_specialist"
  else if 75 ≤ max_pvp_score ∧ 1 ≤ strong_leagues then
    pure "league_anchor"
  else if 3 ≤ raid_score ∨ 1 ≤ top_type_rankings then
    pure "raid_specialist"
  else if 2 ≤ raid_score ∨ 1 ≤ top_type_rankings then
    pure "type_specialist"
  else if has_good_defense ∧ 60 ≤ max_pvp_score then
    pure "gym_defender"
  else if 65 ≤ max_pvp_score then
    pure "cup_specialist"
  else if 50 ≤ max_pvp_score then
    pure "spice_pick"
  else if 45 ≤ max_pvp_score ∨ 1 ≤ raid_score then
    pure "budget_option"
  else
    pure "collector_only"

/-- Python `str.title()` restricted to ASCII letters: uppercase a
letter not preceded by a letter, lowercase the rest. -/
def titleStr (s : String) : String :=
  let step : Bool × List Char → Char → Bool × List Char := fun st c =>
    let c' := if st.1 then c.toLower else c.toUpper
    (c.isAlpha, c' :: st.2)
  String.mk (s.data.foldl step (false, [])).2.reverse

/-- `f"{league.title()} League ({data['score']})"` entries with score
at least `bound` (used with 80 in `identify_strengths` and 70 in
`generate_notes`). -/
def strongLeagueStrings (leagues : Leagues) (bound : Int) : List String :=
  leagues.filterMap (fun kv =>
    match kv.2 with
    | Option.none => Option.none
    | Option.some obj =>
      if bound ≤ obj.getD 0 then
        Option.some (titleStr kv.1 ++ " League (" ++ toString (obj.getD 0) ++ ")")
      else Option.none)

/-- `PokemonAgent.identify_strengths` (pokemon_agent.py 149-190). -/
def identify_strengths (cfg : Config) (p : Pokemon) : Except PyErr (List String) := do
  let leagues := p.leagues.orD []
  let best_types := p.bestTypes.orD []
  let types := p.types.orD []
  let raid_tier := p.raidTier.orD ""
  let strong_leagues := strongLeagueStrings leagues 80
  let s1 : List String :=
    if strong_leagues.isEmpty then []
    else if 1 < strong_leagues.length then
      [String.intercalate " & " strong_leagues ++ " performance"]
    else [strong_leagues.headD ""]
  let ranked ← rankedTypes best_types
  let elite_types := (ranked.filter (fun tr => tr.2 ≤ 5)).map (fun tr => tr.1.ty)
  let s2 : List String :=
    if elite_types.isEmpty then []
    else ["elite " ++ String.intercalate "/" (elite_types.take 2) ++ " attacker"]
  let s3 : List String :=
    if types.any (fun t => cfg.defensive_types.contains t) then
      ["excellent defensive typing"]
    else if types.any (fun t => cfg.offensive_types.contains t) then
      ["powerful offensive typing"]
    else []
  let s4 : List String :=
    if pyIn "S Tier" raid_tier then ["top-tier raid performance"]
    else if pyIn "A+ Tier" raid_tier then ["elite raid utility"]
    else []
  pure ((s1 ++ s2 ++ s3 ++ s4).take 2)

/-- `max(xs, key=f)` for a non-empty list: Python keeps the first
maximal element. -/
def pyMaxBy {α : Type} (f : α → Int) : List α → Option α
  | [] => Option.none
  | x :: xs => Option.some (xs.foldl (fun b a => if f b < f a then a else b) x)

/-- `PokemonAgent.get_best_use_case` (pokemon_agent.py 226-244). -/
def get_best_use_case (p : Pokemon) : String :=
  let leagues := p.leagues.orD []
  let raid_tier := p.raidTier.orD ""
  let defense_tier := p.defenderTier.orD ""
  let pvp_scores : List (String × Int) :=
    leagues.filterMap (fun kv =>
      match kv.2 with
      | Option.none => Option.none
      | Option.some obj => Option.some (kv.1, obj.getD 0))
  let best_league := pyMaxBy (fun x => x.2) pvp_scores
  match best_league with
  | Option.some bl =>
    if 75 ≤ bl.2 then titleStr (strReplace1 bl.1 '_' ' ') ++ " League"
    else if raid_tier = "S Tier" ∨ raid_tier = "A+ Tier" ∨ raid_tier = "A Tier" then
      "raid battles"
    else if defense_tier = "S Tier" ∨ defense_tier = "A+ Tier" ∨ defense_tier = "A Tier" then
      "gym defense"
    else "niche situations"
  | Option.none =>
    if raid_tier = "S Tier" ∨ raid_tier = "A+ Tier" ∨ raid_tier = "A Tier" then
      "raid battles"
    else if defense_tier = "S Tier" ∨ defense_tier = "A+ Tier" ∨ defense_tier = "A Tier" then
      "gym defense"
    else "niche situations"

/-- `PokemonAgent.get_specific_use_case` (pokemon_agent.py 246-266). -/
def get_specific_use_case (p : Pokemon) : String :=
  let leagues := p.leagues.orD []
  let form := strLower (p.form.orD "")
  if pyIn "shadow" form then "glass cannon raids"
  else if pyIn "mega" form then "temporary raid boosts"
  else if pyIn "gigantamax" form then "Max Battles"
  else
    let valid_leagues := leagues.filterMap (fun kv =>
      match kv.2 with
      | Option.none => Option.none
      | Option.some obj => Option.some (kv.1, obj))
    match pyMaxBy (fun x => x.2.getD 0) valid_leagues with
    | Option.some bl =>
      if 60 ≤ bl.2.getD 0 then titleStr (strReplace1 bl.1 '_' ' ') ++ " League coverage"
      else "type coverage gaps"
    | Option.none => "type coverage gaps"

/-- `PokemonAgent.get_type_coverage` (pokemon_agent.py 268-276). -/
def get_type_coverage (p : Pokemon) : String :=
  let types := p.types.orD []
  if 2 ≤ types.length then String.intercalate "/" types ++ " coverage"
  else match types with
    | [t] => t ++ " type coverage"
    | _ => "type coverage"

/-- `pokemon.get('name', 'This Pokemon')` as it prints inside a
template (`None` renders as "None"). -/
def displayName (p : Pokemon) : String :=
  match p.name with
  | .absent => "This Pokemon"
  | .null => "None"
  | .val s => s

/-- `PokemonAgent.generate_role_summary` (pokemon_agent.py 192-224). -/
def generate_role_summary (cfg : Config) (p : Pokemon) (tier role : String)
    (strengths : List String) : String :=
  let template := cfg.role_summary_templates tier
  let pokemon_name := displayName p
  let role_name := cfg.role_types role
  let best_use_case := get_best_use_case p
  let key_strength := strengths.headD "basic utility"
  let type_coverage := get_type_coverage p
  if tier = "trash" then template (TmplCall.trashCall pokemon_name)
  else if tier = "situational" ∨ tier = "limited" then
    let specific_use := get_specific_use_case p
    let backup_role :=
      if tier = "limited" then "backup " ++ strLower role_name else strLower role_name
    template (TmplCall.situCall pokemon_name (strLower role_name) specific_use
      backup_role type_coverage)
  else
    template (TmplCall.mainCall pokemon_name (strLower role_name) best_use_case key_strength)

/-- The `priority_mapping` table in `generate_tags` (pokemon_agent.py 288-295). -/
def priority_mapping : List (String × List String) :=
  [("essential", ["Meta Relevant", "Essential Build"]),
   ("valuable", ["High Priority", "Core Team"]),
   ("reliable", ["Budget Friendly", "Type Coverage"]),
   ("useful", ["Future Investment"]),
   ("niche", ["Spice Factor"]),
   ("trash", ["Trash Tier", "Candy Fodder"])]

/-- The `role_tags` table in `generate_tags` (pokemon_agent.py 319-330). -/
def role_tags : List (String × List String) :=
  [("meta_anchor", ["Core Team", "League Staple"]),
   ("pvp_specialist", ["League Staple", "Anti-Meta"]),
   ("league_anchor", ["League Staple", "Safe Switch"]),
   ("raid_specialist", ["High DPS", "Raid Filler"]),
   ("type_specialist", ["Type Coverage", "Raid Filler"]),
   ("gym_defender", ["Gym Defender", "Tanky"]),
   ("cup_specialist", ["Cup Meta", "Niche Cup"]),
   ("spice_pick", ["Spice Factor", "Flex Pick"]),
   ("budget_option", ["Budget Friendly", "Low Investment"]),
   ("collector_only", ["Candy Fodder", "Skip Building"])]

/-- Investment-level tags from `recommended_count`
(pokemon_agent.py 300-308): note the final `elif == 0`, which adds
nothing for negative counts. -/
def investTags (recommended_count : Int) : List String :=
  if 4 ≤ recommended_count then ["Heavy Investment"]
  else if 2 ≤ recommended_count then ["XL Investment"]
  else if recommended_count = 1 then ["Low Investment"]
  else if recommended_count = 0 then ["Skip Building"]
  else []

/-- Performance-style tags (pokemon_agent.py 310-316). -/
def styleTags (form raid_tier : String) (leagues : Leagues) : List String :=
  if pyIn "shadow" form then ["Glass Cannon"]
  else if raid_tier = "S Tier" ∨ raid_tier = "A+ Tier" then ["High DPS"]
  else if leagues.any (fun kv =>
      match kv.2 with
      | Option.none => false
      | Option.some obj => 80 ≤ obj.getD 0) then ["League Staple"]
  else []

/-- The role-tag loop (pokemon_agent.py 332-337): append each tag not
already present, stopping once the list reaches 4 entries. -/
def addRoleTags : List String → List String → List String
  | [], tags => tags
  | t :: rest, tags =>
    if t ∈ tags then addRoleTags rest tags
    else
      let tags' := tags ++ [t]
      if 4 ≤ tags'.length then tags' else addRoleTags rest tags'

/-- Form-specific tags (pokemon_agent.py 339-345): a single
`if`/`elif` chain, each guard also checking the tag is not present. -/
def formTags (form : String) (tags : List String) : List String :=
  if pyIn "shadow" form ∧ "Shadow Boost" ∉ tags then tags ++ ["Shadow Boost"]
  else if pyIn "mega" form ∧ "Mega Evolution" ∉ tags then tags ++ ["Mega Evolution"]
  else if pyIn "gigantamax" form ∧ "Gigantamax" ∉ tags then tags ++ ["Gigantamax"]
  else tags

/-- The trashability tags: `priority_mapping[trashability][:2]` when
the key is known, nothing otherwise (pokemon_agent.py 297-298). -/
def trashTagsOf (trashability : String) : List String :=
  match priority_mapping.lookup trashability with
  | Option.some l => l.take 2
  | Option.none => []

/-- `PokemonAgent.generate_tags` (pokemon_agent.py 278-352); the
`tier` and `strengths` parameters are accepted and unused, as in the
source. -/
def generate_tags (p : Pokemon) (tier role : String) (strengths : List String) :
    List String :=
  let trashability := strLower (p.trashability.orD "")
  let form := strLower (p.form.orD "")
  let recommended_count := p.recommendedCount.orD 0
  let leagues := p.leagues.orD []
  let raid_tier := p.raidTier.orD ""
  let tags : List String := trashTagsOf trashability
  let tags := tags ++ investTags recommended_count
  let tags := tags ++ styleTags form raid_tier leagues
  let tags :=
    match role_tags.lookup role with
    | Option.some rts => addRoleTags rts tags
    | Option.none => tags
  let tags := formTags form tags
  let tags := tags.take 5
  let tags := if tags.length < 2 then tags ++ ["Type Coverage", "Future Investment"] else tags
  let _ := (tier, strengths)
  tags.take 5

/-- The raid-performance sentence of `generate_notes`
(pokemon_agent.py 375-380): slice `best_types[:3]` first, then keep
entries whose parsed rank is at most 15. -/
def raidSentence (raid_tier : String) (best_types : List BType) :
    Except PyErr String := do
  let ranked ← rankedTypes (best_types.take 3)
  let top_types := ((ranked.filter (fun tr => tr.2 ≤ 15)).map
    (fun tr => tr.1.ty ++ " (rank " ++ tr.1.rankDisplay ++ ")"))
  if top_types.isEmpty then
    pure (raid_tier ++ " raid performance.")
  else
    pure (raid_tier ++ " raid performance with rankings in: " ++
      String.intercalate ", " top_types ++ ".")

/-- The recommended-count sentence of `generate_notes`
(pokemon_agent.py 388-396). -/
def countSentence (count : Int) : String :=
  if 4 ≤ count then
    "High recommended count (" ++ toString count ++ ") indicates multiple roles."
  else if 2 ≤ count then
    "Moderate recommended count (" ++ toString count ++ ") suggests specific utility."
  else if count = 1 then
    "Keep one copy for collection or specific use cases."
  else
    "No copies recommended - transfer for candy."

/-- The three form-specific note sentences (pokemon_agent.py 398-406). -/
def shadowSentence : String :=
  "Shadow form provides increased attack at the cost of defense."

def megaSentence : String :=
  "Mega evolution provides temporary power boost."

def gigaSentence : String :=
  "Gigantamax form designed for Max Battle mechanics."

/-- The `if`/`elif` chain over the lowercased form
(pokemon_agent.py 401-406). -/
def formChain (f : String) : List String :=
  if pyIn "shadow" (strLower f) then [shadowSentence]
  else if pyIn "mega" (strLower f) then [megaSentence]
  else if pyIn "gigantamax" (strLower f) then [gigaSentence]
  else []

/-- The form-specific sentences appended by `generate_notes`
(pokemon_agent.py 398-406). -/
def formNoteSentences (formF : Option String) : List String :=
  match formF with
  | Option.none => []
  | Option.some f =>
    if f ≠ "" ∧ f ≠ "normal" then formChain f
    else []

/-- `PokemonAgent.generate_notes` (pokemon_agent.py 354-408) as the
list of sentences it accumulates; like `calculate_performance_tier`,
`pokemon.get('leagues', {})` is unguarded here, and in the raid branch
a `null` `bestTypes` raises at `best_types[:3]`, and a `null`
`recommendedCount` raises at `count >= 4`. -/
def generate_notes_list (cfg : Config) (p : Pokemon) (tier role : String)
    (strengths : List String) : Except PyErr (List String) := do
  let notes : List String :=
    ["Rated " ++ cfg.performance_tiers tier ++ " due to overall performance analysis."]
  let leagues ← match p.leagues.getPy [] with
    | Option.none => Except.error PyErr.attributeError
    | Option.some l => pure l
  let strong_leagues := strongLeagueStrings leagues 70
  let notes := notes ++
    (if strong_leagues.isEmpty then []
     else ["Strong PvP performance in: " ++ String.intercalate ", " strong_leagues ++ "."])
  let raid_tier : Option String := p.raidTier.getPy ""
  let notes ← match raid_tier with
    | Option.none => pure notes
    | Option.some rt =>
      if rt ≠ "" ∧ ¬ pyIn "null" (strLower rt) then do
        let best_types ← match p.bestTypes.getPy [] with
          | Option.none => Except.error PyErr.typeError
          | Option.some l => pure l
        let s ← raidSentence rt best_types
        pure (notes ++ [s])
      else pure notes
  let defense_tier : Option String := p.defenderTier.getPy ""
  let notes := notes ++
    (match defense_tier with
     | Option.none => []
     | Option.some dt =>
       if dt ≠ "" ∧ ¬ pyIn "null" (strLower dt) then [dt ++ " gym defender."] else [])
  let count ← match p.recommendedCount.getPy 0 with
    | Option.none => Except.error PyErr.typeError
    | Option.some c => pure c
  let notes := notes ++ [countSentence count]
  let notes := notes ++ formNoteSentences (p.form.getPy "")
  let _ := (role, strengths)
  pure notes

/-- `PokemonAgent.generate_notes`: the joined string. -/
def generate_notes (cfg : Config) (p : Pokemon) (tier role : String)
    (strengths : List String) : Except PyErr String := do
  let l ← generate_notes_list cfg p tier role strengths
  pure (String.intercalate " " l)

/-- `PokemonAgent.analyze_pokemon` (pokemon_agent.py 49-75), with the
components evaluated in source order. -/
def analyze_pokemon (cfg : Config) (p : Pokemon) : Except PyErr AnalyzeResult := do
  let performance_tier ← calculate_performance_tier cfg p
  let role_type ← determine_role_type cfg p
  let strengths ← identify_strengths cfg p
  let role_summary := generate_role_summary cfg p performance_tier role_type strengths
  let notes ← generate_notes cfg p performance_tier role_type strengths
  let tags := generate_tags p performance_tier role_type strengths
  let role_name := cfg.role_types role_type
  pure { quickRole := role_name, keyTags := tags, roleSummary := role_summary,
         notes := notes }

/-- The record name used by the batch driver
(`pokemon.get('name', f'Pokemon #{i}')`, batch_ai_processor.py 63),
rendered as it prints. -/
def batchDisplayName (i : ℕ) (p : Pokemon) : String :=
  match p.name with
  | .absent => "Pokemon #" ++ toString i
  | .null => "None"
  | .val s => s

/-- Merging a successful analysis into the record
(batch_ai_processor.py 70-75). -/
def mergeAnalysis (p : Pokemon) (r : AnalyzeResult) : Pokemon :=
  { p with quickRole := Fld.val r.quickRole, keyTags := Fld.val r.keyTags,
           roleSummary := Fld.val r.roleSummary, notes := Fld.val r.notes }

/-- The fallback update applied when analysis of one record raises
(batch_ai_processor.py 104-109). -/
def fallbackUpdate (i : ℕ) (p : Pokemon) (e : PyErr) : Pokemon :=
  { p with quickRole := Fld.val "Unknown",
           keyTags := Fld.val ["Processing Error"],
           roleSummary := Fld.val ("Error processing " ++ batchDisplayName i p ++
             ". Please review manually."),
           notes := Fld.val ("AI analysis failed: " ++ errStr e) }

/-- What one loop iteration of `process_pokemon_batch` does to record
number `i`: one analysis attempt, then merge or fallback. -/
def stepRecord (cfg : Config) (i : ℕ) (p : Pokemon) : Pokemon :=
  match analyze_pokemon cfg p with
  | Except.ok r => mergeAnalysis p r
  | Except.error e => fallbackUpdate i p e

/-- Whether the iteration for record `i` succeeded (counted in
`processed_count`) or raised (counted in `error_count`). -/
def stepOk (cfg : Config) (p : Pokemon) : Bool :=
  match analyze_pokemon cfg p with
  | Except.ok _ => true
  | Except.error _ => false

/-- The loop of `BatchAIProcessor.process_pokemon_batch`
(batch_ai_processor.py 61-109), modelled from index `i` on: returns
the updated records together with (`processed_count`, `error_count`).
File backups and console printing are I/O and are not modelled. -/
def processFrom (cfg : Config) : ℕ → List Pokemon → List Pokemon × ℕ × ℕ
  | _, [] => ([], 0, 0)
  | i, p :: rest =>
    let tail := processFrom cfg (i + 1) rest
    match analyze_pokemon cfg p with
    | Except.ok r => (mergeAnalysis p r :: tail.1, tail.2.1 + 1, tail.2.2)
    | Except.error e => (fallbackUpdate i p e :: tail.1, tail.2.1, tail.2.2 + 1)

/-- `BatchAIProcessor.process_pokemon_batch` with `start_idx = 0`. -/
def process_pokemon_batch (cfg : Config) (records : List Pokemon) :
    List Pokemon × ℕ × ℕ :=
  processFrom cfg 0 records

/-- The six tier keys (spec section 4.2). -/
def tierKeys : List String :=
  ["meta_defining", "strong", "solid", "situational", "limited", "trash"]

/-- The ten role keys returned by `determine_role_type`. -/
def roleKeys : List String :=
  ["meta_anchor", "pvp_specialist", "league_anchor", "raid_specialist",
   "type_specialist", "gym_defender", "cup_specialist", "spice_pick",
   "budget_option", "collector_only"]

/-- The tier cascade exactly as the claim words it: first matching
predicate wins over the metrics (max league score, strong-league
count, raid score). -/
def specTier (maxScore : Int) (strong : ℕ) (raid : Int) : String :=
  if 90 ≤ maxScore ∧ 2 ≤ strong ∧ 4 ≤ raid then "meta_defining"
  else if 80 ≤ maxScore ∧ (1 ≤ strong ∨ 3 ≤ raid) then "strong"
  else if 70 ≤ maxScore ∨ 3 ≤ raid then "solid"
  else if 60 ≤ maxScore ∨ 2 ≤ raid then "situational"
  else if 50 ≤ maxScore ∨ 1 ≤ raid then "limited"
  else "trash"

/-- Tier order `meta_defining > strong > solid > situational > limited
> trash` as a rank. -/
def tierRank (t : String) : ℕ :=
  if t = "meta_defining" then 5
  else if t = "strong" then 4
  else if t = "solid" then 3
  else if t = "situational" then 2
  else if t = "limited" then 1
  else 0

/-- "Max league score": maximum of all present league score values
(0 if no leagues). -/
def specMaxLeague (p : Pokemon) : Int :=
  maxPvp (pvpScoresOf (p.leagues.orD []))

/-- "Strong-league count": count of league scores at least 75. -/
def specStrongCount (p : Pokemon) : ℕ :=
  strongLeagueCount (pvpScoresOf (p.leagues.orD []))

/-- "Raid score": lookup of the record's `raidTier` in
`raid_tier_rankings`, defaulting to 0 for unrecognized or absent
tiers. -/
def specRaidScore (cfg : Config) (p : Pokemon) : Int :=
  match p.raidTier with
  | Fld.val rt => raidScoreOf cfg rt
  | _ => 0

/-- The four investment tags of spec section 4.5 step 2. -/
def investFour : List String :=
  ["Heavy Investment", "XL Investment", "Low Investment", "Skip Building"]

/-- The investment tag the claim prescribes for a nonnegative
recommended count. -/
def investTagOf (c : Int) : String :=
  if 4 ≤ c then "Heavy Investment"
  else if 2 ≤ c then "XL Investment"
  else if c = 1 then "Low Investment"
  else "Skip Building"

/-- The three form-specific note sentences as a list. -/
def formSentences : List String := [shadowSentence, megaSentence, gigaSentence]

/-- A small concrete configuration used for witnesses and
counterexamples. -/
def cfg0 : Config :=
  { raid_tier_rankings := [("S Tier", 5), ("A+ Tier", 4), ("A Tier", 3), ("X", 1)],
    performance_tiers := fun t => "D-" ++ t,
    role_types := fun r => "N-" ++ r,
    role_summary_templates := fun _t c =>
      match c with
      | .trashCall n => "T:" ++ n
      | .situCall n r su br tc =>
        "S:" ++ n ++ "|" ++ r ++ "|" ++ su ++ "|" ++ br ++ "|" ++ tc
      | .mainCall n r bu ks => "M:" ++ n ++ "|" ++ r ++ "|" ++ bu ++ "|" ++ ks,
    defensive_types := ["steel"],
    offensive_types := ["dragon"] }

/-- A record whose `leagues` key is present but `null`. -/
def pNullLeagues : Pokemon := { emptyPokemon with leagues := Fld.null }

/-- A record whose `bestTypes` key is present but `null`. -/
def pNullBestTypes : Pokemon := { emptyPokemon with bestTypes := Fld.null }

/-- A record whose `recommendedCount` key is present but `null`. -/
def pNullCount : Pokemon := { emptyPokemon with recommendedCount := Fld.null }

/-- A record with a negative `recommendedCount` whose role is
`spice_pick`. -/
def pA : Pokemon :=
  { emptyPokemon with
    leagues := Fld.val [("great", Option.some (Option.some 55))],
    recommendedCount := Fld.val (-1) }

/-- A record with `recommendedCount = 5` whose role is
`budget_option`. -/
def pB : Pokemon :=
  { emptyPokemon with raidTier := Fld.val "X", recommendedCount := Fld.val 5 }

/-- A record whose only rank-3 `bestTypes` entry sits at index 3,
outside the `[:3]` slice taken by `generate_notes`. -/
def pC : Pokemon :=
  { emptyPokemon with
    raidTier := Fld.val "A Tier",
    bestTypes := Fld.val
      [⟨"Bug", Fld.val (RankVal.strV "999")⟩, ⟨"Rock", Fld.val (RankVal.strV "999")⟩,
       ⟨"Ice", Fld.val (RankVal.strV "999")⟩, ⟨"Fire", Fld.val (RankVal.strV "3")⟩] }

/-- A record whose form is present, not "normal", and contains none of
the shadow/mega/gigantamax markers. -/
def pD : Pokemon := { emptyPokemon with form := Fld.val "Alolan" }

/-- A well-formed record on which every stage succeeds. -/
def pW : Pokemon :=
  { emptyPokemon with
    name := Fld.val "Testmon",
    types := Fld.val ["steel", "dragon"],
    leagues := Fld.val
      [("great", Option.some (Option.some 85)), ("ultra", Option.some (Option.some 77))],
    raidTier := Fld.val "A Tier",
    form := Fld.val "shadow",
    trashability := Fld.val "valuable",
    recommendedCount := Fld.val 2,
    bestTypes := Fld.val [⟨"Fire", Fld.val (RankVal.strV "3")⟩] }

/-! ## Helper lemmas -/

theorem exceptBind_ok {ε α β : Type} {x : Except ε α} {f : α → Except ε β} {b : β}
    (h : x >>= f = Except.ok b) : ∃ a, x = Except.ok a ∧ f a = Except.ok b := by
  cases x with
  | ok a => exact ⟨a, rfl, h⟩
  | error e =>
    simp only [Bind.bind, Except.bind] at h
    exact Except.noConfusion h

theorem orD_eq_of_getPy {α : Type} {x : Fld α} {d a : α}
    (h : x.getPy d = Option.some a) : x.orD d = a := by
  cases x with
  | absent => exact Option.some.inj h
  | null => exact Option.noConfusion h
  | val b => exact Option.some.inj h

theorem tierRank_meta : tierRank "meta_defining" = 5 := rfl
theorem tierRank_strong : tierRank "strong" = 4 := rfl
theorem tierRank_solid : tierRank "solid" = 3 := rfl
theorem tierRank_situational : tierRank "situational" = 2 := rfl
theorem tierRank_limited : tierRank "limited" = 1 := rfl
theorem tierRank_trash : tierRank "trash" = 0 := rfl

theorem specTier_mem (m : Int) (s : ℕ) (r : Int) : specTier m s r ∈ tierKeys := by
  unfold specTier tierKeys
  split_ifs <;> simp

theorem specTier_mono {m m' : Int} {s s' : ℕ} {r r' : Int}
    (hm : m ≤ m') (hs : s ≤ s') (hr : r ≤ r') :
    tierRank (specTier m s r) ≤ tierRank (specTier m' s' r') := by
  unfold specTier
  split_ifs <;>
    simp only [tierRank_meta, tierRank_strong, tierRank_solid, tierRank_situational,
      tierRank_limited, tierRank_trash] <;>
    omega

theorem raid_code_eq_spec {cfg : Config} {p : Pokemon}
    (h0 : cfg.raid_tier_rankings.lookup "" = Option.none) :
    (match p.raidTier.getPy "" with
     | Option.none => (0 : Int)
     | Option.some rt => raidScoreOf cfg rt) = specRaidScore cfg p := by
  rcases hpr : p.raidTier with _ | _ | rt <;>
    simp [Fld.getPy, specRaidScore, raidScoreOf, hpr, h0]

theorem calc_tier_spec {cfg : Config} {p : Pokemon} {t : String}
    (h0 : cfg.raid_tier_rankings.lookup "" = Option.none)
    (h : calculate_performance_tier cfg p = Except.ok t) :
    t = specTier (specMaxLeague p) (specStrongCount p) (specRaidScore cfg p) := by
  unfold calculate_performance_tier at h
  cases hL : p.leagues.getPy [] with
  | none =>
    rw [hL] at h
    simp only [Bind.bind, Except.bind] at h
    exact Except.noConfusion h
  | some L =>
    rw [hL] at h
    cases hB : p.bestTypes.getPy [] with
    | none =>
      rw [hB] at h
      simp only [Bind.bind, Except.bind, pure, Except.pure] at h
      exact Except.noConfusion h
    | some bts =>
      rw [hB] at h
      simp only [Bind.bind, Except.bind, pure, Except.pure] at h
      cases hT : topTypeRankings bts with
      | error e =>
        rw [hT] at h
        exact Except.noConfusion h
      | ok n =>
        rw [hT] at h
        unfold specMaxLeague specStrongCount
        rw [orD_eq_of_getPy hL, ← raid_code_eq_spec h0]
        unfold specTier
        split_ifs at h ⊢ <;> simp_all

/-! ## Claim C1 -/

/-- Claim C1: for every record, the tier classifier returns exactly one
of the six tier keys, chosen by the ordered first-match cascade over
max league score, strong-league count (scores at least 75) and the
raid score looked up in `raid_tier_rankings` with default 0; stated
for every configuration that does not rank the empty tier string
(matching the claim's "defaulting to 0 for unrecognized/absent
tiers"), and for every run on which the classifier returns. -/
theorem claim_C1_tier_cascade (cfg : Config) (p : Pokemon) (t : String)
    (h0 : cfg.raid_tier_rankings.lookup "" = Option.none)
    (h : calculate_performance_tier cfg p = Except.ok t) :
    t = specTier (specMaxLeague p) (specStrongCount p) (specRaidScore cfg p) ∧
    t ∈ tierKeys := by
  have hs := calc_tier_spec h0 h
  exact ⟨hs, hs ▸ specTier_mem _ _ _⟩

/-- Witness for C1 at a concrete record and configuration. -/
theorem claim_C1_witness :
    ("strong" : String) =
      specTier (specMaxLeague pW) (specStrongCount pW) (specRaidScore cfg0 pW) ∧
    ("strong" : String) ∈ tierKeys :=
  claim_C1_tier_cascade cfg0 pW "strong" (by rfl) (by rfl)

/-! ## Claim C5 -/

/-- Claim C5: tier classification is monotonic — whenever one record's
metrics (max league score, strong-league count, raid score) are all at
most another's, its computed tier is not strictly higher in the order
meta_defining > strong > solid > situational > limited > trash; in
particular increasing any single metric while holding the other two
fixed never lowers the tier. -/
theorem claim_C5_tier_monotone (cfg cfg' : Config) (p q : Pokemon) (t u : String)
    (h0 : cfg.raid_tier_rankings.lookup "" = Option.none)
    (h0' : cfg'.raid_tier_rankings.lookup "" = Option.none)
    (hp : calculate_performance_tier cfg p = Except.ok t)
    (hq : calculate_performance_tier cfg' q = Except.ok u)
    (hm : specMaxLeague p ≤ specMaxLeague q)
    (hs : specStrongCount p ≤ specStrongCount q)
    (hr : specRaidScore cfg p ≤ specRaidScore cfg' q) :
    tierRank t ≤ tierRank u := by
  rw [calc_tier_spec h0 hp, calc_tier_spec h0' hq]
  exact specTier_mono hm hs hr

/-- Witness for C5 at two concrete records. -/
theorem claim_C5_witness : tierRank "trash" ≤ tierRank "strong" :=
  claim_C5_tier_monotone cfg0 cfg0 emptyPokemon pW "trash" "strong"
    (by rfl) (by rfl) (by rfl) (by rfl) (by decide) (by decide) (by decide)

/-! ## Claim C4 -/

/-- Claim C4 (amended): the rank parser maps "5", "5.", the integer 5
and the float 5.0 to 5, and None, "" and "abc" to 999; for every
input it returns an integer, except that a cleaned string parsing to
an infinite float (such as "inf") raises OverflowError, which the
`except (ValueError, TypeError)` clause does not catch. -/
theorem claim_C4_parse_rank :
    parseRank (RankVal.strV "5") = Except.ok 5 ∧
    parseRank (RankVal.strV "5.") = Except.ok 5 ∧
    parseRank (RankVal.intV 5) = Except.ok 5 ∧
    parseRank (RankVal.floatV (PyFloat.finite (PyRat.mk 5 1))) = Except.ok 5 ∧
    parseRank RankVal.noneV = Except.ok 999 ∧
    parseRank (RankVal.strV "") = Except.ok 999 ∧
    parseRank (RankVal.strV "abc") = Except.ok 999 ∧
    ∀ v : RankVal,
      (∃ n : Int, parseRank v = Except.ok n) ∨
      (parseRank v = Except.error PyErr.overflowError ∧
        (pyFloatOfString (strDropRightWhile (pyStr v) (fun c => c = '.')) =
            Option.some PyFloat.inf ∨
         pyFloatOfString (strDropRightWhile (pyStr v) (fun c => c = '.')) =
            Option.some PyFloat.negInf)) := by
  refine ⟨rfl, rfl, rfl, rfl, rfl, rfl, rfl, ?_⟩
  intro v
  unfold parseRank
  cases hf : pyFloatOfString (strDropRightWhile (pyStr v) (fun c => c = '.')) with
  | none => exact Or.inl ⟨999, rfl⟩
  | some f =>
    cases f with
    | finite q => exact Or.inl ⟨_, rfl⟩
    | nan => exact Or.inl ⟨999, rfl⟩
    | inf => exact Or.inr ⟨rfl, Or.inl rfl⟩
    | negInf => exact Or.inr ⟨rfl, Or.inr rfl⟩

/-- Counterexample for C4 as stated: on input "inf" the parser raises
OverflowError instead of returning an integer. -/
theorem claim_C4_counterexample :
    parseRank (RankVal.strV "inf") = Except.error PyErr.overflowError := by rfl

/-! ## Claim C10 -/

/-- Claim C10: noninterference of derived fields — two records that
agree on the nine input fields and differ only in the four derived
fields (quickRole, keyTags, roleSummary, notes) produce identical
results from `analyze_pokemon`, so re-running the engine on an
already-enriched record changes nothing. -/
theorem claim_C10_noninterference (cfg : Config) (p q : Pokemon)
    (h1 : p.name = q.name) (h2 : p.types = q.types) (h3 : p.leagues = q.leagues)
    (h4 : p.raidTier = q.raidTier) (h5 : p.defenderTier = q.defenderTier)
    (h6 : p.bestTypes = q.bestTypes) (h7 : p.form = q.form)
    (h8 : p.trashability = q.trashability)
    (h9 : p.recommendedCount = q.recommendedCount) :
    analyze_pokemon cfg p = analyze_pokemon cfg q := by
  obtain ⟨n, ty, lg, rt, dt, bt, fo, tr, rc, a1, a2, a3, a4⟩ := p
  obtain ⟨n', ty', lg', rt', dt', bt', fo', tr', rc', b1, b2, b3, b4⟩ := q
  dsimp only at h1 h2 h3 h4 h5 h6 h7 h8 h9
  subst h1 h2 h3 h4 h5 h6 h7 h8 h9
  rfl

/-- Witness for C10: a record with derived fields filled in analyses
identically to the same record without them. -/
theorem claim_C10_witness :
    analyze_pokemon cfg0 pW =
      analyze_pokemon cfg0
        { pW with quickRole := Fld.val "Stale Role",
                  keyTags := Fld.val ["Stale Tag"],
                  roleSummary := Fld.val "stale",
                  notes := Fld.val "stale" } :=
  claim_C10_noninterference cfg0 pW _ rfl rfl rfl rfl rfl rfl rfl rfl rfl

/-! ## Claim C3 -/

theorem getPy_ne_null {α : Type} {x : Fld α} (h : x ≠ Fld.null) (d : α) :
    ∃ a, x.getPy d = Option.some a := by
  cases x with
  | absent => exact ⟨d, rfl⟩
  | null => exact absurd rfl h
  | val a => exact ⟨a, rfl⟩

theorem rankedTypes_ok {l : List BType}
    (h : ∀ t ∈ l, ∃ n, parseRank t.rankPy = Except.ok n) :
    ∃ rs, rankedTypes l = Except.ok rs := by
  induction l with
  | nil => exact ⟨[], rfl⟩
  | cons t rest ih =>
    obtain ⟨n, hn⟩ := h t (List.mem_cons_self t rest)
    obtain ⟨rs, hrs⟩ := ih (fun x hx => h x (List.mem_cons_of_mem t hx))
    refine ⟨(t, n) :: rs, ?_⟩
    unfold rankedTypes
    rw [hn, hrs]

theorem calc_tier_ok {cfg : Config} {p : Pokemon}
    (hl : p.leagues ≠ Fld.null) (hb : p.bestTypes ≠ Fld.null)
    (hr : ∀ t ∈ p.bestTypes.orD [], ∃ n, parseRank t.rankPy = Except.ok n) :
    ∃ t, calculate_performance_tier cfg p = Except.ok t := by
  obtain ⟨L, hL⟩ := getPy_ne_null hl []
  obtain ⟨bts, hB⟩ := getPy_ne_null hb []
  have hbts : p.bestTypes.orD [] = bts := orD_eq_of_getPy hB
  rw [hbts] at hr
  obtain ⟨rs, hrs⟩ := rankedTypes_ok hr
  unfold calculate_performance_tier
  rw [hL, hB]
  simp only [Bind.bind, Except.bind, pure, Except.pure]
  unfold topTypeRankings
  rw [hrs]
  split_ifs <;> exact ⟨_, rfl⟩

theorem role_ok {cfg : Config} {p : Pokemon}
    (hr : ∀ t ∈ p.bestTypes.orD [], ∃ n, parseRank t.rankPy = Except.ok n) :
    ∃ r, determine_role_type cfg p = Except.ok r ∧ r ∈ roleKeys := by
  obtain ⟨rs, hrs⟩ := rankedTypes_ok hr
  unfold determine_role_type topTypeRankings
  dsimp only [Bind.bind, Except.bind, pure, Except.pure]
  rw [hrs]
  dsimp only
  split_ifs <;> exact ⟨_, rfl, by simp [roleKeys]⟩

theorem strengths_ok {cfg : Config} {p : Pokemon}
    (hr : ∀ t ∈ p.bestTypes.orD [], ∃ n, parseRank t.rankPy = Except.ok n) :
    ∃ s, identify_strengths cfg p = Except.ok s := by
  obtain ⟨rs, hrs⟩ := rankedTypes_ok hr
  unfold identify_strengths
  dsimp only [Bind.bind, Except.bind, pure, Except.pure]
  rw [hrs]
  dsimp only
  exact ⟨_, rfl⟩

theorem raidSentence_ok {rt : String} {bts : List BType}
    (hr : ∀ t ∈ bts, ∃ n, parseRank t.rankPy = Except.ok n) :
    ∃ s, raidSentence rt bts = Except.ok s := by
  obtain ⟨rs, hrs⟩ :=
    rankedTypes_ok (fun t ht => hr t (List.mem_of_mem_take ht))
  unfold raidSentence
  dsimp only [Bind.bind, Except.bind, pure, Except.pure]
  rw [hrs]
  dsimp only
  split_ifs <;> exact ⟨_, rfl⟩

theorem notes_ok {cfg : Config} {p : Pokemon} {tier role : String}
    {strengths : List String}
    (hl : p.leagues ≠ Fld.null) (hb : p.bestTypes ≠ Fld.null)
    (hc : p.recommendedCount ≠ Fld.null)
    (hr : ∀ t ∈ p.bestTypes.orD [], ∃ n, parseRank t.rankPy = Except.ok n) :
    ∃ l, generate_notes_list cfg p tier role strengths = Except.ok l := by
  obtain ⟨L, hL⟩ := getPy_ne_null hl []
  obtain ⟨bts, hB⟩ := getPy_ne_null hb []
  have hbts : p.bestTypes.orD [] = bts := orD_eq_of_getPy hB
  rw [hbts] at hr
  obtain ⟨c, hC⟩ := getPy_ne_null hc 0
  unfold generate_notes_list
  dsimp only [Bind.bind, Except.bind, pure, Except.pure]
  rw [hL, hC]
  dsimp only
  cases hrt : p.raidTier.getPy "" with
  | none => exact ⟨_, rfl⟩
  | some rt =>
    dsimp only
    rw [hB]
    dsimp only
    by_cases hcond : rt ≠ "" ∧ ¬ pyIn "null" (strLower rt) = true
    · rw [if_pos hcond]
      obtain ⟨s, hsent⟩ := @raidSentence_ok rt bts hr
      rw [hsent]
      exact ⟨_, rfl⟩
    · rw [if_neg hcond]
      exact ⟨_, rfl⟩

/-- Claim C3 (amended): `analyze_pokemon` returns normally for every
record and configuration, provided additionally that the `leagues`,
`bestTypes` and `recommendedCount` fields are not `null` (a `null`
there raises, because `calculate_performance_tier` and
`generate_notes` read them without the `or`-guards the other methods
use) and that no `bestTypes` rank parses to an infinite float. -/
theorem claim_C3_analyze_total (cfg : Config) (p : Pokemon)
    (hl : p.leagues ≠ Fld.null) (hb : p.bestTypes ≠ Fld.null)
    (hc : p.recommendedCount ≠ Fld.null)
    (hr : ∀ t ∈ p.bestTypes.orD [], ∃ n, parseRank t.rankPy = Except.ok n) :
    ∃ res, analyze_pokemon cfg p = Except.ok res := by
  obtain ⟨t, ht⟩ := @calc_tier_ok cfg p hl hb hr
  obtain ⟨r, hrl, _⟩ := @role_ok cfg p hr
  obtain ⟨s, hs⟩ := @strengths_ok cfg p hr
  obtain ⟨nl, hnl⟩ := @notes_ok cfg p t r s hl hb hc hr
  unfold analyze_pokemon generate_notes
  dsimp only [Bind.bind, Except.bind, pure, Except.pure]
  rw [ht]
  dsimp only
  rw [hrl]
  dsimp only
  rw [hs]
  dsimp only
  rw [hnl]
  dsimp only
  exact ⟨_, rfl⟩

/-- Counterexample for C3 as stated: a present-but-null `leagues`,
`bestTypes` or `recommendedCount` field makes `analyze_pokemon` raise
even though the configuration is complete. -/
theorem claim_C3_counterexample :
    analyze_pokemon cfg0 pNullLeagues = Except.error PyErr.attributeError ∧
    analyze_pokemon cfg0 pNullBestTypes = Except.error PyErr.typeError ∧
    analyze_pokemon cfg0 pNullCount = Except.error PyErr.typeError :=
  ⟨rfl, rfl, rfl⟩

/-- Witness for C3 (amended) at a concrete record. -/
theorem claim_C3_witness : ∃ res, analyze_pokemon cfg0 pW = Except.ok res :=
  claim_C3_analyze_total cfg0 pW (by intro h; cases h) (by intro h; cases h)
    (by intro h; cases h)
    (by
      intro t ht
      simp only [pW, Fld.orD, List.mem_singleton] at ht
      subst ht
      exact ⟨3, rfl⟩)

/-! ## Claim C9 -/

theorem processFrom_length (cfg : Config) (k : ℕ) (rs : List Pokemon) :
    (processFrom cfg k rs).1.length = rs.length := by
  induction rs generalizing k with
  | nil => rfl
  | cons p rest ih =>
    unfold processFrom
    cases analyze_pokemon cfg p <;> simp [ih]

theorem processFrom_get (cfg : Config) (k : ℕ) (rs : List Pokemon) (j : ℕ) :
    (processFrom cfg k rs).1[j]? = (rs[j]?).map (fun p => stepRecord cfg (k + j) p) := by
  induction rs generalizing k j with
  | nil => simp [processFrom]
  | cons p rest ih =>
    unfold processFrom
    cases ha : analyze_pokemon cfg p with
    | ok r =>
      dsimp only
      cases j with
      | zero => simp [stepRecord, ha]
      | succ j' =>
        simp only [List.getElem?_cons_succ]
        rw [show k + (j' + 1) = (k + 1) + j' from by omega]
        exact ih (k + 1) j'
    | error e =>
      dsimp only
      cases j with
      | zero => simp [stepRecord, ha]
      | succ j' =>
        simp only [List.getElem?_cons_succ]
        rw [show k + (j' + 1) = (k + 1) + j' from by omega]
        exact ih (k + 1) j'

theorem processFrom_counts (cfg : Config) (k : ℕ) (rs : List Pokemon) :
    (processFrom cfg k rs).2.1 = rs.countP (fun p => stepOk cfg p) ∧
    (processFrom cfg k rs).2.2 = rs.countP (fun p => ! stepOk cfg p) := by
  induction rs generalizing k with
  | nil => exact ⟨rfl, rfl⟩
  | cons p rest ih =>
    obtain ⟨ih1, ih2⟩ := ih (k + 1)
    unfold processFrom
    cases ha : analyze_pokemon cfg p <;>
      simp [List.countP_cons, stepOk, ha, ih1, ih2]

/-- Claim C9: if analyzing one record raises, the batch does not
abort — that record gets the fallback values (`quickRole="Unknown"`,
`keyTags=["Processing Error"]`, explanatory summary and notes), the
error counter counts exactly the raising records, every other record
is still processed in input order, each by exactly one analysis
attempt, and the processed/error counters partition the batch. -/
theorem claim_C9_batch_recovery (cfg : Config) (records : List Pokemon) (i : ℕ)
    (p : Pokemon) (e : PyErr)
    (hp : records[i]? = Option.some p)
    (he : analyze_pokemon cfg p = Except.error e) :
    (process_pokemon_batch cfg records).1.length = records.length ∧
    (process_pokemon_batch cfg records).1[i]? =
      Option.some (fallbackUpdate i p e) ∧
    (fallbackUpdate i p e).quickRole = Fld.val "Unknown" ∧
    (fallbackUpdate i p e).keyTags = Fld.val ["Processing Error"] ∧
    (fallbackUpdate i p e).roleSummary =
      Fld.val ("Error processing " ++ batchDisplayName i p ++
        ". Please review manually.") ∧
    (fallbackUpdate i p e).notes =
      Fld.val ("AI analysis failed: " ++ errStr e) ∧
    (∀ j q, records[j]? = Option.some q →
      (process_pokemon_batch cfg records).1[j]? =
        Option.some (stepRecord cfg j q)) ∧
    (process_pokemon_batch cfg records).2.2 =
      records.countP (fun r => ! stepOk cfg r) ∧
    (process_pokemon_batch cfg records).2.1 +
      (process_pokemon_batch cfg records).2.2 = records.length := by
  unfold process_pokemon_batch
  obtain ⟨hc1, hc2⟩ := processFrom_counts cfg 0 records
  have hpart : ∀ l : List Pokemon,
      l.countP (fun r => stepOk cfg r) + l.countP (fun r => ! stepOk cfg r) =
        l.length := by
    intro l
    induction l with
    | nil => rfl
    | cons x xs ih =>
      simp only [List.countP_cons]
      cases hx : stepOk cfg x <;> simp [hx] <;> omega
  refine ⟨processFrom_length cfg 0 records, ?_, rfl, rfl, rfl, rfl, ?_, hc2, ?_⟩
  · have h := processFrom_get cfg 0 records i
    rw [hp] at h
    simpa [stepRecord, he] using h
  · intro j q hq
    have h := processFrom_get cfg 0 records j
    rw [hq] at h
    simpa using h
  · rw [hc1, hc2]
    exact hpart records

/-- Witness for C9: a two-record batch whose second record raises. -/
theorem claim_C9_witness :
    (process_pokemon_batch cfg0 [pW, pNullLeagues]).1.length = 2 ∧
    (process_pokemon_batch cfg0 [pW, pNullLeagues]).1[1]? =
      Option.some (fallbackUpdate 1 pNullLeagues PyErr.attributeError) ∧
    (fallbackUpdate 1 pNullLeagues PyErr.attributeError).quickRole =
      Fld.val "Unknown" ∧
    (fallbackUpdate 1 pNullLeagues PyErr.attributeError).keyTags =
      Fld.val ["Processing Error"] ∧
    (fallbackUpdate 1 pNullLeagues PyErr.attributeError).roleSummary =
      Fld.val ("Error processing " ++ batchDisplayName 1 pNullLeagues ++
        ". Please review manually.") ∧
    (fallbackUpdate 1 pNullLeagues PyErr.attributeError).notes =
      Fld.val ("AI analysis failed: " ++ errStr PyErr.attributeError) ∧
    (∀ j q, ([pW, pNullLeagues])[j]? = Option.some q →
      (process_pokemon_batch cfg0 [pW, pNullLeagues]).1[j]? =
        Option.some (stepRecord cfg0 j q)) ∧
    (process_pokemon_batch cfg0 [pW, pNullLeagues]).2.2 =
      ([pW, pNullLeagues]).countP (fun r => ! stepOk cfg0 r) ∧
    (process_pokemon_batch cfg0 [pW, pNullLeagues]).2.1 +
      (process_pokemon_batch cfg0 [pW, pNullLeagues]).2.2 = 2 :=
  claim_C9_batch_recovery cfg0 [pW, pNullLeagues] 1 pNullLeagues
    PyErr.attributeError rfl rfl

/-! ## Claims C2 and C6: the tag generator -/

/-- The seven possible outputs of the trashability step. -/
def trashOpts : List (List String) :=
  [[], ["Meta Relevant", "Essential Build"], ["High Priority", "Core Team"],
   ["Budget Friendly", "Type Coverage"], ["Future Investment"], ["Spice Factor"],
   ["Trash Tier", "Candy Fodder"]]

/-- The five possible outputs of the investment step. -/
def investOpts : List (List String) :=
  [["Heavy Investment"], ["XL Investment"], ["Low Investment"], ["Skip Building"], []]

/-- The four possible outputs of the performance-style step. -/
def styleOpts : List (List String) :=
  [["Glass Cannon"], ["High DPS"], ["League Staple"], []]

theorem trashTags_mem (t : String) : trashTagsOf t ∈ trashOpts := by
  unfold trashTagsOf priority_mapping
  simp only [List.lookup]
  cases t == "essential" <;> cases t == "valuable" <;> cases t == "reliable" <;>
    cases t == "useful" <;> cases t == "niche" <;> cases t == "trash" <;>
    simp [trashOpts]

theorem investTags_mem (c : Int) : investTags c ∈ investOpts := by
  unfold investTags
  split_ifs <;> simp [investOpts]

theorem styleTags_mem (f rt : String) (lg : Leagues) :
    styleTags f rt lg ∈ styleOpts := by
  unfold styleTags
  split_ifs <;> simp [styleOpts]

theorem opts_nodup :
    ∀ A ∈ trashOpts, ∀ B ∈ investOpts, ∀ C ∈ styleOpts,
      (A ++ B ++ C).Nodup := by decide

theorem trashOpts_len : ∀ A ∈ trashOpts, A.length ≤ 2 := by decide

theorem base_nodup (t : String) (c : Int) (f rt : String) (lg : Leagues) :
    (trashTagsOf t ++ investTags c ++ styleTags f rt lg).Nodup :=
  opts_nodup _ (trashTags_mem t) _ (investTags_mem c) _ (styleTags_mem f rt lg)

theorem two_le_length_of_mem {α : Type} {a b : α} {l : List α}
    (ha : a ∈ l) (hb : b ∈ l) (hne : a ≠ b) : 2 ≤ l.length := by
  cases l with
  | nil => cases ha
  | cons x xs =>
    cases xs with
    | nil =>
      simp only [List.mem_singleton] at ha hb
      exact absurd (ha.trans hb.symm) hne
    | cons y ys => simp [List.length_cons]

theorem addRoleTags_nodup (l : List String) (tags : List String)
    (h : tags.Nodup) : (addRoleTags l tags).Nodup := by
  induction l generalizing tags with
  | nil => exact h
  | cons t rest ih =>
    unfold addRoleTags
    by_cases hmem : t ∈ tags
    · rw [if_pos hmem]
      exact ih tags h
    · rw [if_neg hmem]
      have h' : (tags ++ [t]).Nodup := by
        simp [List.nodup_append, h, hmem]
      by_cases hlen : 4 ≤ (tags ++ [t]).length
      · rw [if_pos hlen]
        exact h'
      · rw [if_neg hlen]
        exact ih _ h'

theorem addRoleTags_append (l : List String) (tags : List String) :
    ∃ r, addRoleTags l tags = tags ++ r := by
  induction l generalizing tags with
  | nil => exact ⟨[], (List.append_nil tags).symm⟩
  | cons t rest ih =>
    unfold addRoleTags
    by_cases hmem : t ∈ tags
    · rw [if_pos hmem]
      exact ih tags
    · rw [if_neg hmem]
      by_cases hlen : 4 ≤ (tags ++ [t]).length
      · rw [if_pos hlen]
        exact ⟨[t], rfl⟩
      · rw [if_neg hlen]
        obtain ⟨r, hr⟩ := ih (tags ++ [t])
        exact ⟨[t] ++ r, by rw [hr, List.append_assoc]⟩

theorem addRoleTags_two (a b : String) (hne : a ≠ b) (tags : List String) :
    2 ≤ (addRoleTags [a, b] tags).length := by
  unfold addRoleTags
  by_cases ha : a ∈ tags
  · rw [if_pos ha]
    unfold addRoleTags
    by_cases hb : b ∈ tags
    · rw [if_pos hb]
      unfold addRoleTags
      exact two_le_length_of_mem ha hb hne
    · rw [if_neg hb]
      by_cases hlen : 4 ≤ (tags ++ [b]).length
      · rw [if_pos hlen]
        omega
      · rw [if_neg hlen]
        unfold addRoleTags
        exact two_le_length_of_mem (List.mem_append_left _ ha)
          (List.mem_append_right _ (List.mem_singleton_self b)) hne
  · rw [if_neg ha]
    by_cases hlen : 4 ≤ (tags ++ [a]).length
    · rw [if_pos hlen]
      omega
    · rw [if_neg hlen]
      unfold addRoleTags
      by_cases hb : b ∈ tags ++ [a]
      · rw [if_pos hb]
        exact two_le_length_of_mem
          (List.mem_append_right _ (List.mem_singleton_self a)) hb hne
      · rw [if_neg hb]
        by_cases hlen2 : 4 ≤ (tags ++ [a] ++ [b]).length
        · rw [if_pos hlen2]
          omega
        · rw [if_neg hlen2]
          unfold addRoleTags
          exact two_le_length_of_mem
            (List.mem_append_left _
              (List.mem_append_right _ (List.mem_singleton_self a)))
            (List.mem_append_right _ (List.mem_singleton_self b)) hne

theorem formTags_append (f : String) (tags : List String) :
    ∃ r, formTags f tags = tags ++ r := by
  unfold formTags
  split_ifs
  · exact ⟨["Shadow Boost"], rfl⟩
  · exact ⟨["Mega Evolution"], rfl⟩
  · exact ⟨["Gigantamax"], rfl⟩
  · exact ⟨[], (List.append_nil tags).symm⟩

theorem formTags_nodup (f : String) (tags : List String) (h : tags.Nodup) :
    (formTags f tags).Nodup := by
  unfold formTags
  split_ifs with h1 h2 h3
  · simp [List.nodup_append, h, h1.2]
  · simp [List.nodup_append, h, h2.2]
  · simp [List.nodup_append, h, h3.2]
  · exact h

theorem lookup_role_pair (role : String) (h : role ∈ roleKeys) :
    ∃ a b, role_tags.lookup role = Option.some [a, b] ∧ a ≠ b := by
  simp only [roleKeys, List.mem_cons, List.not_mem_nil, or_false] at h
  rcases h with rfl | rfl | rfl | rfl | rfl | rfl | rfl | rfl | rfl | rfl
  all_goals exact ⟨_, _, rfl, by decide⟩

theorem mem_take_append {x : String} {X r : List String} {k : ℕ}
    (h : x ∈ X.take k) : x ∈ (X ++ r).take k := by
  rw [List.take_append_eq_append_take]
  exact List.mem_append_left _ h

theorem tags_tail_spec (t4 : List String) (h2 : 2 ≤ t4.length) (hN : t4.Nodup) :
    2 ≤ ((if (t4.take 5).length < 2
          then t4.take 5 ++ ["Type Coverage", "Future Investment"]
          else t4.take 5).take 5).length ∧
    ((if (t4.take 5).length < 2
      then t4.take 5 ++ ["Type Coverage", "Future Investment"]
      else t4.take 5).take 5).length ≤ 5 ∧
    ((if (t4.take 5).length < 2
      then t4.take 5 ++ ["Type Coverage", "Future Investment"]
      else t4.take 5).take 5).Nodup := by
  have hlen : (t4.take 5).length = min 5 t4.length := List.length_take 5 t4
  have h2' : 2 ≤ (t4.take 5).length := by omega
  rw [if_neg (by omega)]
  rw [List.take_of_length_le (List.length_take_le 5 t4)]
  exact ⟨h2', by omega, List.Nodup.sublist (List.take_sublist 5 t4) hN⟩

theorem tags_tail_mem (t4 : List String) (x : String) (hx : x ∈ t4.take 5) :
    x ∈ (if (t4.take 5).length < 2
         then t4.take 5 ++ ["Type Coverage", "Future Investment"]
         else t4.take 5).take 5 := by
  have h55 : (t4.take 5).take 5 = t4.take 5 :=
    List.take_of_length_le (List.length_take_le 5 t4)
  by_cases h : (t4.take 5).length < 2
  · rw [if_pos h]
    exact mem_take_append (by rw [h55]; exact hx)
  · rw [if_neg h]
    rw [h55]
    exact hx

theorem role_mem_of_ok {cfg : Config} {p : Pokemon} {r : String}
    (h : determine_role_type cfg p = Except.ok r) : r ∈ roleKeys := by
  unfold determine_role_type at h
  dsimp only at h
  obtain ⟨n, _, h⟩ := exceptBind_ok h
  split_ifs at h <;> simp only [pure, Except.pure, Except.ok.injEq] at h <;>
    subst h <;> decide

theorem generate_tags_spec (p : Pokemon) (tier role : String)
    (strengths : List String) (hrole : role ∈ roleKeys) :
    2 ≤ (generate_tags p tier role strengths).length ∧
    (generate_tags p tier role strengths).length ≤ 5 ∧
    (generate_tags p tier role strengths).Nodup := by
  obtain ⟨a, b, hl, hab⟩ := lookup_role_pair role hrole
  unfold generate_tags
  dsimp only
  rw [hl]
  dsimp only
  have hbase := base_nodup (strLower (p.trashability.orD ""))
    (p.recommendedCount.orD 0) (strLower (p.form.orD "")) (p.raidTier.orD "")
    (p.leagues.orD [])
  have h3N := addRoleTags_nodup [a, b] _ hbase
  have h32 := addRoleTags_two a b hab
    (trashTagsOf (strLower (p.trashability.orD "")) ++
      investTags (p.recommendedCount.orD 0) ++
      styleTags (strLower (p.form.orD "")) (p.raidTier.orD "") (p.leagues.orD []))
  obtain ⟨r4, hr4⟩ := formTags_append (strLower (p.form.orD ""))
    (addRoleTags [a, b]
      (trashTagsOf (strLower (p.trashability.orD "")) ++
        investTags (p.recommendedCount.orD 0) ++
        styleTags (strLower (p.form.orD "")) (p.raidTier.orD "") (p.leagues.orD [])))
  have h4N := formTags_nodup (strLower (p.form.orD "")) _ h3N
  have h42 : 2 ≤ (formTags (strLower (p.form.orD ""))
      (addRoleTags [a, b]
        (trashTagsOf (strLower (p.trashability.orD "")) ++
          investTags (p.recommendedCount.orD 0) ++
          styleTags (strLower (p.form.orD "")) (p.raidTier.orD "")
            (p.leagues.orD [])))).length := by
    rw [hr4]
    rw [List.length_append]
    omega
  exact tags_tail_spec _ h42 h4N

/-- Claim C2: for every record on which `analyze_pokemon` returns, the
`keyTags` list has between 2 and 5 elements and contains no duplicate
strings. -/
theorem claim_C2_keytags (cfg : Config) (p : Pokemon) (res : AnalyzeResult)
    (h : analyze_pokemon cfg p = Except.ok res) :
    2 ≤ res.keyTags.length ∧ res.keyTags.length ≤ 5 ∧ res.keyTags.Nodup := by
  unfold analyze_pokemon at h
  dsimp only at h
  obtain ⟨t, ht, h⟩ := exceptBind_ok h
  obtain ⟨r, hrole, h⟩ := exceptBind_ok h
  obtain ⟨s, hstr, h⟩ := exceptBind_ok h
  obtain ⟨nts, hnts, h⟩ := exceptBind_ok h
  simp only [pure, Except.pure, Except.ok.injEq] at h
  subst h
  exact generate_tags_spec p t r s (role_mem_of_ok hrole)

/-- Witness for C2 at a concrete record. -/
theorem claim_C2_witness :
    2 ≤ (["High Priority", "Core Team", "XL Investment", "Glass Cannon",
          "League Staple"] : List String).length ∧
    (["High Priority", "Core Team", "XL Investment", "Glass Cannon",
      "League Staple"] : List String).length ≤ 5 ∧
    (["High Priority", "Core Team", "XL Investment", "Glass Cannon",
      "League Staple"] : List String).Nodup :=
  claim_C2_keytags cfg0 pW
    ⟨"N-meta_anchor",
     ["High Priority", "Core Team", "XL Investment", "Glass Cannon",
      "League Staple"],
     "M:Testmon|n-meta_anchor|Great League|Great League (85)",
     "Rated D-strong due to overall performance analysis. Strong PvP performance in: Great League (85), Ultra League (77). A Tier raid performance with rankings in: Fire (rank 3). Moderate recommended count (2) suggests specific utility. Shadow form provides increased attack at the cost of defense."⟩
    (by rfl)

theorem investTags_nonneg (c : Int) (hc : 0 ≤ c) :
    investTags c = [investTagOf c] := by
  unfold investTags investTagOf
  split_ifs <;> first | rfl | (exfalso; omega)

/-- Claim C6 (amended): for every record whose `recommendedCount`
resolves to a nonnegative integer, the generated tag list contains the
investment tag the count prescribes (Heavy if at least 4, else XL if
at least 2, else Low if exactly 1, else Skip Building); exactness does
not hold — negative counts add no investment tag, and the
role-specific tables can add `Low Investment` or `Skip Building` as
extras — but the prescribed tag always survives truncation. -/
theorem claim_C6_invest_tag (p : Pokemon) (tier role : String)
    (strengths : List String) (c : Int) (hc : p.recommendedCount.orD 0 = c)
    (h0 : 0 ≤ c) :
    investTagOf c ∈ generate_tags p tier role strengths := by
  unfold generate_tags
  dsimp only
  rw [hc, investTags_nonneg c h0]
  have hA := trashOpts_len _ (trashTags_mem (strLower (p.trashability.orD "")))
  have hbase : investTagOf c ∈
      (trashTagsOf (strLower (p.trashability.orD "")) ++ [investTagOf c] ++
        styleTags (strLower (p.form.orD "")) (p.raidTier.orD "")
          (p.leagues.orD [])).take 5 := by
    apply @mem_take_append (investTagOf c)
      (trashTagsOf (strLower (p.trashability.orD "")) ++ [investTagOf c])
      (styleTags (strLower (p.form.orD "")) (p.raidTier.orD "")
        (p.leagues.orD [])) 5
    rw [List.take_of_length_le]
    · exact List.mem_append_right _ (List.mem_singleton_self _)
    · rw [List.length_append]
      simp only [List.length_singleton]
      omega
  have hrolemem : investTagOf c ∈
      (match role_tags.lookup role with
       | Option.some rts => addRoleTags rts
           (trashTagsOf (strLower (p.trashability.orD "")) ++ [investTagOf c] ++
             styleTags (strLower (p.form.orD "")) (p.raidTier.orD "")
               (p.leagues.orD []))
       | Option.none =>
           trashTagsOf (strLower (p.trashability.orD "")) ++ [investTagOf c] ++
             styleTags (strLower (p.form.orD "")) (p.raidTier.orD "")
               (p.leagues.orD [])).take 5 := by
    cases hl : role_tags.lookup role with
    | none => exact hbase
    | some rts =>
      obtain ⟨r3, hr3⟩ := addRoleTags_append rts
        (trashTagsOf (strLower (p.trashability.orD "")) ++ [investTagOf c] ++
          styleTags (strLower (p.form.orD "")) (p.raidTier.orD "")
            (p.leagues.orD []))
      dsimp only
      rw [hr3]
      exact mem_take_append hbase
  obtain ⟨r4, hr4⟩ := formTags_append (strLower (p.form.orD ""))
    (match role_tags.lookup role with
     | Option.some rts => addRoleTags rts
         (trashTagsOf (strLower (p.trashability.orD "")) ++ [investTagOf c] ++
           styleTags (strLower (p.form.orD "")) (p.raidTier.orD "")
             (p.leagues.orD []))
     | Option.none =>
         trashTagsOf (strLower (p.trashability.orD "")) ++ [investTagOf c] ++
           styleTags (strLower (p.form.orD "")) (p.raidTier.orD "")
             (p.leagues.orD []))
  apply tags_tail_mem
  rw [hr4]
  exact mem_take_append hrolemem

/-- Witness for C6 (amended) at a concrete record. -/
theorem claim_C6_witness :
    investTagOf 2 ∈ generate_tags pW "strong" "meta_anchor" [] :=
  claim_C6_invest_tag pW "strong" "meta_anchor" [] 2 rfl (by decide)

/-- Counterexample for C6 as stated: `pA` has integer recommendedCount
-1 and its keyTags contain none of the four investment tags, and `pB`
has recommendedCount 5 and its keyTags contain two of them (`Heavy
Investment` from the count and `Low Investment` from the
`budget_option` role tags). -/
theorem claim_C6_counterexample :
    (analyze_pokemon cfg0 pA = Except.ok
      ⟨"N-spice_pick", ["Spice Factor", "Flex Pick"],
       "S:This Pokemon|n-spice_pick|type coverage gaps|backup n-spice_pick|type coverage",
       "Rated D-limited due to overall performance analysis. No copies recommended - transfer for candy."⟩ ∧
     ∀ t ∈ investFour, t ∉ (["Spice Factor", "Flex Pick"] : List String)) ∧
    (analyze_pokemon cfg0 pB = Except.ok
      ⟨"N-budget_option",
       ["Heavy Investment", "Budget Friendly", "Low Investment"],
       "S:This Pokemon|n-budget_option|type coverage gaps|backup n-budget_option|type coverage",
       "Rated D-limited due to overall performance analysis. X raid performance. High recommended count (5) indicates multiple roles."⟩ ∧
     "Heavy Investment" ∈
       (["Heavy Investment", "Budget Friendly", "Low Investment"] : List String) ∧
     "Low Investment" ∈
       (["Heavy Investment", "Budget Friendly", "Low Investment"] : List String)) :=
  ⟨⟨rfl, by decide⟩, rfl, by decide, by decide⟩

/-! ## Claim C7 -/

/-- Claim C7 (amended): whenever `raidTier` is a non-empty string not
containing the "null" marker and notes generation succeeds, the notes
contain the raid-performance sentence built by `raidSentence` over the
FIRST THREE `bestTypes` entries (the code slices `best_types[:3]`
before filtering by parsed rank, so a rank-15-or-better entry beyond
index 2 is not listed). -/
theorem claim_C7_raid_note (cfg : Config) (p : Pokemon) (tier role : String)
    (strengths : List String) (rt : String) (bts : List BType) (l : List String)
    (hrt : p.raidTier = Fld.val rt) (hne : rt ≠ "")
    (hnull : pyIn "null" (strLower rt) = false)
    (hbt : p.bestTypes.getPy [] = Option.some bts)
    (hl : generate_notes_list cfg p tier role strengths = Except.ok l) :
    ∃ s, raidSentence rt bts = Except.ok s ∧ s ∈ l := by
  have hrt' : p.raidTier.getPy "" = Option.some rt := by rw [hrt]; rfl
  unfold generate_notes_list at hl
  dsimp only [Bind.bind, Except.bind, pure, Except.pure] at hl
  cases hL : p.leagues.getPy [] with
  | none =>
    rw [hL] at hl
    exact Except.noConfusion hl
  | some L =>
    rw [hL] at hl
    dsimp only at hl
    rw [hrt'] at hl
    dsimp only at hl
    rw [if_pos ⟨hne, by simp [hnull]⟩] at hl
    rw [hbt] at hl
    dsimp only at hl
    cases hs : raidSentence rt bts with
    | error e =>
      rw [hs] at hl
      exact Except.noConfusion hl
    | ok s =>
      rw [hs] at hl
      dsimp only at hl
      cases hC : p.recommendedCount.getPy 0 with
      | none =>
        rw [hC] at hl
        exact Except.noConfusion hl
      | some c =>
        rw [hC] at hl
        dsimp only at hl
        have hll := Except.ok.inj hl
        refine ⟨s, rfl, ?_⟩
        rw [← hll]
        exact List.mem_append_left _ (List.mem_append_left _
          (List.mem_append_left _
            (List.mem_append_right _ (List.mem_singleton_self s))))

/-- Witness for C7 (amended) at a concrete record. -/
theorem claim_C7_witness :
    ∃ s, raidSentence "A Tier" [⟨"Fire", Fld.val (RankVal.strV "3")⟩] =
        Except.ok s ∧
      s ∈ (["Rated D-strong due to overall performance analysis.",
            "Strong PvP performance in: Great League (85), Ultra League (77).",
            "A Tier raid performance with rankings in: Fire (rank 3).",
            "Moderate recommended count (2) suggests specific utility.",
            "Shadow form provides increased attack at the cost of defense."] :
           List String) :=
  claim_C7_raid_note cfg0 pW "strong" "meta_anchor" [] "A Tier"
    [⟨"Fire", Fld.val (RankVal.strV "3")⟩] _ rfl (by decide) (by rfl) rfl (by rfl)

/-- Counterexample for C7 as stated: `pC` has a rank-3 entry among its
`bestTypes`, yet the notes carry only the bare raid sentence, because
the entry sits at index 3, outside the `[:3]` slice. -/
theorem claim_C7_counterexample :
    (⟨"Fire", Fld.val (RankVal.strV "3")⟩ : BType) ∈ pC.bestTypes.orD [] ∧
    parseRank (BType.rankPy ⟨"Fire", Fld.val (RankVal.strV "3")⟩) =
      Except.ok 3 ∧
    generate_notes_list cfg0 pC "solid" "raid_specialist" [] = Except.ok
      ["Rated D-solid due to overall performance analysis.",
       "A Tier raid performance.",
       "No copies recommended - transfer for candy."] ∧
    "A Tier raid performance with rankings in: Fire (rank 3)." ∉
      (["Rated D-solid due to overall performance analysis.",
        "A Tier raid performance.",
        "No copies recommended - transfer for candy."] : List String) :=
  ⟨by decide, rfl, rfl, by decide⟩

/-! ## Claim C8 -/

theorem no_prefix_data (w pre : List Char) (k : ℕ) (hk : k ≤ pre.length)
    (h : pre.take k ≠ w.take k) (b : List Char) : pre ++ b ≠ w := by
  intro he
  exact h (by rw [← he, List.take_append_of_le_length hk])

theorem no_suffix_data (w suf : List Char)
    (h : ∀ i ∈ List.range (w.length + 1), w.drop i ≠ suf) (a : List Char) :
    a ++ suf ≠ w := by
  intro he
  have h1 : w.drop a.length = suf := by rw [← he, List.drop_left]
  have h2 : a.length ∈ List.range (w.length + 1) := by
    rw [List.mem_range]
    have := congrArg List.length he
    simp only [List.length_append] at this
    omega
  exact h a.length h2 h1

theorem no_embed_data (w mid : List Char)
    (h : ∀ i ∈ List.range (w.length + 1), (w.drop i).take mid.length ≠ mid)
    (a b : List Char) : a ++ (mid ++ b) ≠ w := by
  intro he
  have h1 : w.drop a.length = mid ++ b := by rw [← he, List.drop_left]
  have h2 : (w.drop a.length).take mid.length = mid := by
    rw [h1, List.take_left]
  have h3 : a.length ∈ List.range (w.length + 1) := by
    rw [List.mem_range]
    have := congrArg List.length he
    simp only [List.length_append] at this
    omega
  exact h a.length h3 h2

theorem rated_not_form (d : String) : ("Rated " ++ d) ∉ formSentences := by
  intro h
  simp only [formSentences, List.mem_cons, List.not_mem_nil, or_false] at h
  rcases h with h | h | h <;>
  · have hd := congrArg String.data h
    simp only [String.data_append] at hd
    exact no_prefix_data _ _ 1 (by decide) (by decide) _ hd

theorem strong_not_form (y : String) :
    ("Strong PvP performance in: " ++ y) ∉ formSentences := by
  intro h
  simp only [formSentences, List.mem_cons, List.not_mem_nil, or_false] at h
  rcases h with h | h | h <;>
  · have hd := congrArg String.data h
    simp only [String.data_append] at hd
    exact no_prefix_data _ _ 2 (by decide) (by decide) _ hd

theorem raidbare_not_form (rt : String) :
    (rt ++ " raid performance.") ∉ formSentences := by
  intro h
  simp only [formSentences, List.mem_cons, List.not_mem_nil, or_false] at h
  rcases h with h | h | h <;>
  · have hd := congrArg String.data h
    simp only [String.data_append] at hd
    exact no_suffix_data _ _ (by decide) _ hd

theorem raidrank_not_form (rt x : String) :
    (rt ++ " raid performance with rankings in: " ++ x ++ ".") ∉
      formSentences := by
  intro h
  simp only [formSentences, List.mem_cons, List.not_mem_nil, or_false] at h
  rcases h with h | h | h <;>
  · have hd := congrArg String.data h
    simp only [String.data_append, List.append_assoc] at hd
    exact no_embed_data _
      (" raid performance with rankings in: ".data) (by decide) _ _ hd

theorem gym_not_form (dt : String) :
    (dt ++ " gym defender.") ∉ formSentences := by
  intro h
  simp only [formSentences, List.mem_cons, List.not_mem_nil, or_false] at h
  rcases h with h | h | h <;>
  · have hd := congrArg String.data h
    simp only [String.data_append] at hd
    exact no_suffix_data _ _ (by decide) _ hd

theorem highcount_not_form (t : String) :
    ("High recommended count (" ++ t) ∉ formSentences := by
  intro h
  simp only [formSentences, List.mem_cons, List.not_mem_nil, or_false] at h
  rcases h with h | h | h <;>
  · have hd := congrArg String.data h
    simp only [String.data_append] at hd
    exact no_prefix_data _ _ 1 (by decide) (by decide) _ hd

theorem modcount_not_form (t : String) :
    ("Moderate recommended count (" ++ t) ∉ formSentences := by
  intro h
  simp only [formSentences, List.mem_cons, List.not_mem_nil, or_false] at h
  rcases h with h | h | h <;>
  · have hd := congrArg String.data h
    simp only [String.data_append] at hd
    exact no_prefix_data _ _ 2 (by decide) (by decide) _ hd

theorem count_not_form (c : Int) : countSentence c ∉ formSentences := by
  unfold countSentence
  split_ifs
  · rw [String.append_assoc]
    exact highcount_not_form _
  · rw [String.append_assoc]
    exact modcount_not_form _
  · decide
  · decide

theorem raidSentence_shape {rt : String} {bts : List BType} {s : String}
    (h : raidSentence rt bts = Except.ok s) :
    s = rt ++ " raid performance." ∨
    ∃ x, s = rt ++ " raid performance with rankings in: " ++ x ++ "." := by
  unfold raidSentence at h
  dsimp only [Bind.bind, Except.bind, pure, Except.pure] at h
  cases hr : rankedTypes (bts.take 3) with
  | error e =>
    rw [hr] at h
    exact Except.noConfusion h
  | ok rs =>
    rw [hr] at h
    dsimp only at h
    split_ifs at h
    · exact Or.inl (Except.ok.inj h).symm
    · exact Or.inr ⟨_, (Except.ok.inj h).symm⟩

theorem all_not_form_append {A B : List String}
    (hA : ∀ s ∈ A, s ∉ formSentences) (hB : ∀ s ∈ B, s ∉ formSentences) :
    ∀ s ∈ A ++ B, s ∉ formSentences := by
  intro s hs
  rcases List.mem_append.mp hs with h | h
  · exact hA s h
  · exact hB s h

theorem all_not_form_single {x : String} (hx : x ∉ formSentences) :
    ∀ s ∈ [x], s ∉ formSentences := by
  intro s hs
  rw [List.mem_singleton] at hs
  exact hs ▸ hx

theorem strongPart_not_form (L : Leagues) :
    ∀ s ∈ (if (strongLeagueStrings L 70).isEmpty = true then ([] : List String)
           else ["Strong PvP performance in: " ++
             String.intercalate ", " (strongLeagueStrings L 70) ++ "."]),
      s ∉ formSentences := by
  split_ifs
  · intro s hs
    exact absurd hs (List.not_mem_nil s)
  · exact all_not_form_single
      (by rw [String.append_assoc]; exact strong_not_form _)

theorem defensePart_not_form (d : Option String) :
    ∀ s ∈ (match d with
           | Option.none => ([] : List String)
           | Option.some dt =>
             if dt ≠ "" ∧ ¬ pyIn "null" (strLower dt) = true
             then [dt ++ " gym defender."] else []),
      s ∉ formSentences := by
  cases d with
  | none =>
    intro s hs
    exact absurd hs (List.not_mem_nil s)
  | some dt =>
    dsimp only
    split_ifs
    · exact all_not_form_single (gym_not_form dt)
    · intro s hs
      exact absurd hs (List.not_mem_nil s)

theorem ratedPart_not_form (d : String) :
    ∀ s ∈ ["Rated " ++ d ++ " due to overall performance analysis."],
      s ∉ formSentences :=
  all_not_form_single (by rw [String.append_assoc]; exact rated_not_form _)

theorem c8_core (body : List String) (f : String)
    (hbody : ∀ s ∈ body, s ∉ formSentences) :
    (body ++ formChain f).countP (fun s => decide (s ∈ formSentences)) =
      (if pyIn "shadow" (strLower f) = true then 1
       else if pyIn "mega" (strLower f) = true then 1
       else if pyIn "gigantamax" (strLower f) = true then 1 else 0) ∧
    (pyIn "shadow" (strLower f) = true → shadowSentence ∈ body ++ formChain f) ∧
    (pyIn "shadow" (strLower f) = false → pyIn "mega" (strLower f) = true →
      megaSentence ∈ body ++ formChain f) ∧
    (pyIn "shadow" (strLower f) = false → pyIn "mega" (strLower f) = false →
      pyIn "gigantamax" (strLower f) = true →
      gigaSentence ∈ body ++ formChain f) := by
  have hz : body.countP (fun s => decide (s ∈ formSentences)) = 0 :=
    List.countP_eq_zero.mpr (by intro a ha; simpa using hbody a ha)
  have hsh : shadowSentence ∈ formSentences := by decide
  have hme : megaSentence ∈ formSentences := by decide
  have hgi : gigaSentence ∈ formSentences := by decide
  unfold formChain
  cases h1 : pyIn "shadow" (strLower f) with
  | true =>
    refine ⟨?_, fun _ => ?_, fun hfa => absurd hfa (by decide),
      fun hfa => absurd hfa (by decide)⟩
    · simp [List.countP_append, hz, List.countP_cons, hsh]
    · simp
  | false =>
    cases h2 : pyIn "mega" (strLower f) with
    | true =>
      refine ⟨?_, fun hta => absurd hta (by decide), fun _ _ => ?_,
        fun _ hfa => absurd hfa (by decide)⟩
      · simp [List.countP_append, hz, List.countP_cons, hme]
      · simp
    | false =>
      cases h3 : pyIn "gigantamax" (strLower f) with
      | true =>
        refine ⟨?_, fun hta => absurd hta (by decide),
          fun _ hta => absurd hta (by decide), fun _ _ _ => ?_⟩
        · simp [List.countP_append, hz, List.countP_cons, hgi]
        · simp
      | false =>
        refine ⟨?_, fun hta => absurd hta (by decide),
          fun _ hta => absurd hta (by decide),
          fun _ _ hta => absurd hta (by decide)⟩
        simp [List.countP_append, hz]

/-- Claim C8 (amended): for a record whose `form` is present, non-empty
and not "normal", the notes contain exactly one form-specific sentence
IF the lowercased form contains one of the markers — the shadow
sentence when it contains "shadow" (checked first), else the mega
sentence when it contains "mega", else the gigantamax sentence when it
contains "gigantamax" — and no form-specific sentence at all when the
form contains none of the markers. -/
theorem claim_C8_form_note (cfg : Config) (p : Pokemon) (tier role : String)
    (strengths : List String) (f : String) (l : List String)
    (hf : p.form = Fld.val f) (hne : f ≠ "") (hnn : f ≠ "normal")
    (hl : generate_notes_list cfg p tier role strengths = Except.ok l) :
    l.countP (fun s => decide (s ∈ formSentences)) =
      (if pyIn "shadow" (strLower f) = true then 1
       else if pyIn "mega" (strLower f) = true then 1
       else if pyIn "gigantamax" (strLower f) = true then 1 else 0) ∧
    (pyIn "shadow" (strLower f) = true → shadowSentence ∈ l) ∧
    (pyIn "shadow" (strLower f) = false → pyIn "mega" (strLower f) = true →
      megaSentence ∈ l) ∧
    (pyIn "shadow" (strLower f) = false → pyIn "mega" (strLower f) = false →
      pyIn "gigantamax" (strLower f) = true → gigaSentence ∈ l) := by
  have hform : formNoteSentences (p.form.getPy "") = formChain f := by
    rw [hf]
    dsimp only [Fld.getPy, formNoteSentences]
    rw [if_pos ⟨hne, hnn⟩]
  unfold generate_notes_list at hl
  dsimp only [Bind.bind, Except.bind, pure, Except.pure] at hl
  rw [hform] at hl
  cases hL : p.leagues.getPy [] with
  | none =>
    rw [hL] at hl
    exact Except.noConfusion hl
  | some L =>
    rw [hL] at hl
    dsimp only at hl
    cases hrtF : p.raidTier.getPy "" with
    | none =>
      rw [hrtF] at hl
      dsimp only at hl
      cases hC : p.recommendedCount.getPy 0 with
      | none =>
        rw [hC] at hl
        exact Except.noConfusion hl
      | some c =>
        rw [hC] at hl
        dsimp only at hl
        rw [← Except.ok.inj hl]
        exact c8_core _ f
          (all_not_form_append (all_not_form_append (all_not_form_append
            (ratedPart_not_form _) (strongPart_not_form L))
            (defensePart_not_form _)) (all_not_form_single (count_not_form c)))
    | some rt =>
      rw [hrtF] at hl
      dsimp only at hl
      by_cases hcond : rt ≠ "" ∧ ¬ pyIn "null" (strLower rt) = true
      · rw [if_pos hcond] at hl
        cases hB : p.bestTypes.getPy [] with
        | none =>
          rw [hB] at hl
          exact Except.noConfusion hl
        | some bts =>
          rw [hB] at hl
          dsimp only at hl
          cases hs : raidSentence rt bts with
          | error e =>
            rw [hs] at hl
            exact Except.noConfusion hl
          | ok s =>
            rw [hs] at hl
            dsimp only at hl
            cases hC : p.recommendedCount.getPy 0 with
            | none =>
              rw [hC] at hl
              exact Except.noConfusion hl
            | some c =>
              rw [hC] at hl
              dsimp only at hl
              rw [← Except.ok.inj hl]
              have hm3 : ∀ x ∈ [s], x ∉ formSentences := by
                rcases raidSentence_shape hs with h | ⟨y, h⟩
                · exact all_not_form_single
                    (show s ∉ formSentences by
                      rw [h]; exact raidbare_not_form rt)
                · exact all_not_form_single
                    (show s ∉ formSentences by
                      rw [h]; exact raidrank_not_form rt y)
              exact c8_core _ f
                (all_not_form_append (all_not_form_append (all_not_form_append
                  (all_not_form_append (ratedPart_not_form _)
                    (strongPart_not_form L)) hm3)
                  (defensePart_not_form _))
                  (all_not_form_single (count_not_form c)))
      · rw [if_neg hcond] at hl
        cases hC : p.recommendedCount.getPy 0 with
        | none =>
          rw [hC] at hl
          exact Except.noConfusion hl
        | some c =>
          rw [hC] at hl
          dsimp only at hl
          rw [← Except.ok.inj hl]
          exact c8_core _ f
            (all_not_form_append (all_not_form_append (all_not_form_append
              (ratedPart_not_form _) (strongPart_not_form L))
              (defensePart_not_form _)) (all_not_form_single (count_not_form c)))

/-- Witness for C8 (amended) at a concrete shadow-form record. -/
theorem claim_C8_witness :
    (["Rated D-strong due to overall performance analysis.",
      "Strong PvP performance in: Great League (85), Ultra League (77).",
      "A Tier raid performance with rankings in: Fire (rank 3).",
      "Moderate recommended count (2) suggests specific utility.",
      "Shadow form provides increased attack at the cost of defense."] :
       List String).countP (fun s => decide (s ∈ formSentences)) =
      (if pyIn "shadow" (strLower "shadow") = true then 1
       else if pyIn "mega" (strLower "shadow") = true then 1
       else if pyIn "gigantamax" (strLower "shadow") = true then 1 else 0) ∧
    (pyIn "shadow" (strLower "shadow") = true → shadowSentence ∈
      (["Rated D-strong due to overall performance analysis.",
        "Strong PvP performance in: Great League (85), Ultra League (77).",
        "A Tier raid performance with rankings in: Fire (rank 3).",
        "Moderate recommended count (2) suggests specific utility.",
        "Shadow form provides increased attack at the cost of defense."] :
         List String)) ∧
    (pyIn "shadow" (strLower "shadow") = false →
      pyIn "mega" (strLower "shadow") = true → megaSentence ∈
      (["Rated D-strong due to overall performance analysis.",
        "Strong PvP performance in: Great League (85), Ultra League (77).",
        "A Tier raid performance with rankings in: Fire (rank 3).",
        "Moderate recommended count (2) suggests specific utility.",
        "Shadow form provides increased attack at the cost of defense."] :
         List String)) ∧
    (pyIn "shadow" (strLower "shadow") = false →
      pyIn "mega" (strLower "shadow") = false →
      pyIn "gigantamax" (strLower "shadow") = true → gigaSentence ∈
      (["Rated D-strong due to overall performance analysis.",
        "Strong PvP performance in: Great League (85), Ultra League (77).",
        "A Tier raid performance with rankings in: Fire (rank 3).",
        "Moderate recommended count (2) suggests specific utility.",
        "Shadow form provides increased attack at the cost of defense."] :
         List String)) :=
  claim_C8_form_note cfg0 pW "strong" "meta_anchor" [] "shadow"
    ["Rated D-strong due to overall performance analysis.",
     "Strong PvP performance in: Great League (85), Ultra League (77).",
     "A Tier raid performance with rankings in: Fire (rank 3).",
     "Moderate recommended count (2) suggests specific utility.",
     "Shadow form provides increased attack at the cost of defense."]
    rfl (by decide) (by decide) (by rfl)

/-- Counterexample for C8 as stated: `pD` has form "Alolan" — present
and not "normal" — yet its notes contain no form-specific sentence at
all. -/
theorem claim_C8_counterexample :
    pD.form = Fld.val "Alolan" ∧ ("Alolan" : String) ≠ "normal" ∧
    generate_notes_list cfg0 pD "trash" "collector_only" [] = Except.ok
      ["Rated D-trash due to overall performance analysis.",
       "No copies recommended - transfer for candy."] ∧
    (["Rated D-trash due to overall performance analysis.",
      "No copies recommended - transfer for candy."] : List String).countP
        (fun s => decide (s ∈ formSentences)) = 0 :=
  ⟨rfl, by decide, rfl, by decide⟩
